import Mathlib

/-!
# VideoConference virtual camera: `SimpleMediaStream.cpp`

A shallow embedding of
`src/modules/videoconference/VideoConferenceCustomMediaSource/SimpleMediaStream.cpp`
and the properties of its format selector, its stream state machine, its
camera switch and its settings refresh.

Conventions of the embedding.

* `UINT32` / `UINT64` values are naturals; attribute getters reduce modulo `2^32`.
* `HRESULT` is a signed integer, `FAILED hr` is `hr < 0`.
* COM pointers are `Option`s; `none` is the null pointer.
* Behaviour the C++ standard leaves undefined (integer division by zero, a null
  pointer dereference, `v[0]` on an empty vector) is an explicit `Fault`.
* Everything the file calls but does not define (Media Foundation, the shared
  memory channels, the image loader) is a field of `Platform`.
-/

namespace VideoConference

/-! ## Machine-level basics -/

/-- Undefined behaviour reached by the C++ code. -/
inductive Fault where
  | divisionByZero
  | nullDereference
  | vectorSubscriptOutOfRange
  deriving DecidableEq, Repr

instance instDecidableEqExcept {ε α : Type} [DecidableEq ε] [DecidableEq α] :
    DecidableEq (Except ε α)
  | .ok a, .ok b =>
    if h : a = b then isTrue (by rw [h]) else isFalse (fun h2 => by cases h2; exact h rfl)
  | .error a, .error b =>
    if h : a = b then isTrue (by rw [h]) else isFalse (fun h2 => by cases h2; exact h rfl)
  | .ok _, .error _ => isFalse (fun h => by cases h)
  | .error _, .ok _ => isFalse (fun h => by cases h)

abbrev HRESULT := Int

def S_OK : HRESULT := 0
def E_INVALIDARG : HRESULT := -2147024809
def E_POINTER : HRESULT := -2147467261
def E_UNEXPECTED : HRESULT := -2147418113
def E_ABORT : HRESULT := -2147467260
def MF_E_SHUTDOWN : HRESULT := -1072873851
def MF_E_INVALID_STATE_TRANSITION : HRESULT := -1072873854

def FAILED (hr : HRESULT) : Bool := decide (hr < 0)

def SUCCEEDED (hr : HRESULT) : Bool := decide (0 ≤ hr)

abbrev GUID := Nat

def GUID_NULL : GUID := 0

/-- The GUID 00000014-0000-0010-8000-00AA00389B71 read as one 128-bit number. -/
def MFVideoFormat_RGB24 : GUID := 0x0000001400000010800000AA00389B71

def UINT32_RANGE : Nat := 4294967296

/-! ## Single-precision values produced by `typeFramerate`

`typeFramerate` divides two `UINT32` values converted to `float`.  Every value so
obtained is `NaN`, `+inf`, or a non-negative multiple of `2^-64` (the smallest
non-zero quotient is `2^-32`, whose unit in the last place is `2^-55`); a finite
value `v` is stored as the natural `v * 2^64`. -/

inductive F32 where
  | nan
  | inf
  | fin (scaled : Nat)
  deriving DecidableEq, Repr

def F32.SCALE : Nat := 18446744073709551616

/-- Halving count: `log2Aux fuel n` is the position of the highest set bit of
`n` whenever `n < 2 ^ fuel`. -/
def F32.log2Aux : Nat → Nat → Nat
  | 0, _ => 0
  | fuel + 1, n => if n < 2 then 0 else F32.log2Aux fuel (n / 2) + 1

/-- Position of the highest set bit of `n` (`0` for `n = 0`); `n` itself is
fuel enough because `n < 2 ^ n`. -/
def F32.log2 (n : Nat) : Nat := F32.log2Aux n n

/-- Round the positive rational `num / den` to 24 significant bits, ties to
even, and return the rounded value times `2^64`.  Exact for quotients in
`[2^-32, 2^32]`, the range `typeFramerate` produces. -/
def F32.roundQuotient (num den : Nat) : Nat :=
  if num = 0 then 0 else
  let x := num * F32.SCALE
  let q := x / den
  let r := x % den
  let sh := F32.log2 q - 23
  let m := q / 2 ^ sh
  let rem := q % 2 ^ sh
  let half := 2 ^ (sh - 1)
  let roundUp : Bool :=
    decide (sh ≠ 0) &&
      (decide (half < rem) || (decide (rem = half) && (decide (r ≠ 0) || decide (m % 2 = 1))))
  (if roundUp then m + 1 else m) * 2 ^ sh

/-- The conversion `static_cast<float>(n)` of an unsigned integer. -/
def F32.ofNat (n : Nat) : F32 := .fin (F32.roundQuotient n 1)

/-- Single-precision division of non-negative operands. -/
def F32.div : F32 → F32 → F32
  | .nan, _ => .nan
  | _, .nan => .nan
  | .inf, .inf => .nan
  | .inf, .fin _ => .inf
  | .fin _, .inf => .fin 0
  | .fin a, .fin b =>
    if b = 0 then (if a = 0 then .nan else .inf) else .fin (F32.roundQuotient a b)

/-- The comparison `lhs < rhs` of C++: false as soon as one side is NaN. -/
def F32.lt : F32 → F32 → Bool
  | .fin a, .fin b => decide (a < b)
  | .fin _, .inf => true
  | _, _ => false

/-- The comparison `lhs > rhs` of C++. -/
def F32.gt (lhs rhs : F32) : Bool := F32.lt rhs lhs

/-- The comparison `lhs >= rhs` of C++: false as soon as one side is NaN. -/
def F32.ge : F32 → F32 → Bool
  | .fin a, .fin b => decide (b ≤ a)
  | .inf, .fin _ => true
  | .inf, .inf => true
  | _, _ => false

/-! ## Media types -/

/-- The three attributes of an `IMFMediaType` the selector reads; `none` is an
attribute that is not set, for which the getter fails and leaves the caller's
initial value in place.  A size and a rate are the two 32-bit halves of one
`UINT64` attribute. -/
structure IMFMediaType where
  MF_MT_SUBTYPE : Option GUID
  MF_MT_FRAME_SIZE : Option (Nat × Nat)
  MF_MT_FRAME_RATE : Option (Nat × Nat)
  deriving DecidableEq, Repr

/-- Reads `MF_MT_FRAME_SIZE` into `(width, height)`, initialised to `(0, 0)`. -/
def MFGetAttributeSize (t : IMFMediaType) : Nat × Nat :=
  match t.MF_MT_FRAME_SIZE with
  | some (w, h) => (w % UINT32_RANGE, h % UINT32_RANGE)
  | none => (0, 0)

/-- Reads `MF_MT_FRAME_RATE` into `(framerateNum, framerateDenum)`, initialised
to `(0, 1)`. -/
def MFGetAttributeRatio (t : IMFMediaType) : Nat × Nat :=
  match t.MF_MT_FRAME_RATE with
  | some (n, d) => (n % UINT32_RANGE, d % UINT32_RANGE)
  | none => (0, 1)

/-- Reads `MF_MT_SUBTYPE` into a `GUID` initialised to the zero GUID. -/
def GetGUID (t : IMFMediaType) : GUID :=
  match t.MF_MT_SUBTYPE with
  | some g => g
  | none => GUID_NULL

/-- An `IMFSourceReader`: the current media type of the first video stream
(`none` when `GetCurrentMediaType` leaves the pointer null) and the native
media types `GetNativeMediaType` hands out for the indices `0, 1, ...` before
it returns a null type. -/
structure IMFSourceReader where
  id : Nat
  currentMediaType : Option IMFMediaType
  nativeMediaTypes : List IMFMediaType
  deriving DecidableEq, Repr

/-! ## `areSame` and `SelectBestMediaType` (lines 136-249) -/

/-- Source: `fabs(lhs - rhs) < EPSILON` with `EPSILON = 0.00000001`.  Both
arguments are always quotients of two `UINT32`s converted to `double`, which
are integers a `double` holds exactly, so the model is over the integers. -/
def areSame (lhs rhs : Int) : Bool := decide (|lhs - rhs| * 100000000 < 1)

/-- The lambda `typeFramerate`. -/
def typeFramerate (type : IMFMediaType) : F32 :=
  F32.div (F32.ofNat (MFGetAttributeRatio type).1) (F32.ofNat (MFGetAttributeRatio type).2)

/-- The constant `15.f`. -/
def minimalAcceptableFramerate : F32 := .fin (15 * F32.SCALE)

/-- The product `static_cast<UINT64>(width) * height`; both factors are below
`2^32`, so the 64-bit product does not wrap. -/
def curResolutionMult (t : IMFMediaType) : Nat :=
  ((MFGetAttributeSize t).1 * (MFGetAttributeSize t).2) % 18446744073709551616

/-- The quotient `width / height` of two `UINT32`s, as stored in a `double`;
only evaluated behind a check that `height` is not zero. -/
def aspectRatio (t : IMFMediaType) : Int :=
  (((MFGetAttributeSize t).1 / (MFGetAttributeSize t).2 : Nat) : Int)

/-- The `for (tyIdx = 0;; ++tyIdx)` loop, run over the native types that are
left; the pair is `(supportedMediaTypes, maxResolution)`.  The test of `hr` that
ends the body is reached with a non-null type only, for which
`GetNativeMediaType` has succeeded, so the loop ends at the null type. -/
def selectLoop (defaultAspectRatio : Int) :
    List IMFMediaType → List IMFMediaType × Nat → Except Fault (List IMFMediaType × Nat)
  | [], acc => .ok acc
  | nextType :: rest, acc =>
    if (MFGetAttributeSize nextType).2 = 0 then .error .divisionByZero
    else if GetGUID nextType ≠ MFVideoFormat_RGB24 then selectLoop defaultAspectRatio rest acc
    else if areSame (aspectRatio nextType) defaultAspectRatio = false then
      selectLoop defaultAspectRatio rest acc
    else if F32.lt (typeFramerate nextType) minimalAcceptableFramerate = true then
      selectLoop defaultAspectRatio rest acc
    else if acc.2 ≤ curResolutionMult nextType then
      selectLoop defaultAspectRatio rest (acc.1 ++ [nextType], curResolutionMult nextType)
    else selectLoop defaultAspectRatio rest acc

/-- Insertion of one element for `stdSort`: behind the leading elements that
`comp` orders before it. -/
def stdSortInsert (comp : IMFMediaType → IMFMediaType → Bool) (x : IMFMediaType) :
    List IMFMediaType → List IMFMediaType
  | [] => [x]
  | y :: ys => if comp y x then y :: stdSortInsert comp x ys else x :: y :: ys

/-- The call `std::sort(begin, end, comp)`: a sorted rearrangement.  The order
of elements `comp` does not separate is unspecified in C++, and this model
keeps their original order, which `std::sort` need not do.  With a NaN key
`comp` is no strict weak ordering and the behaviour of `std::sort` is
undefined, where this model still returns a list.  The theorems below use the
order of the result only under the hypothesis that no key is NaN, and then only
that no element has a greater key than the first one. -/
def stdSort (comp : IMFMediaType → IMFMediaType → Bool) :
    List IMFMediaType → List IMFMediaType
  | [] => []
  | x :: xs => stdSortInsert comp x (stdSort comp xs)

/-- Source: `SelectBestMediaType(IMFSourceReader* reader)`. -/
def SelectBestMediaType (reader : Option IMFSourceReader) : Except Fault IMFMediaType :=
  match reader with
  | none => .error .nullDereference
  | some r =>
    match r.currentMediaType with
    | none => .error .nullDereference
    | some defaultMediaType =>
      if (MFGetAttributeSize defaultMediaType).2 = 0 then .error .divisionByZero
      else
        match selectLoop (aspectRatio defaultMediaType) r.nativeMediaTypes ([], 0) with
        | .error e => .error e
        | .ok (supportedMediaTypes, maxResolution) =>
          let kept := supportedMediaTypes.filter (fun t => curResolutionMult t = maxResolution)
          let sorted := stdSort (fun lhs rhs => F32.gt (typeFramerate lhs) (typeFramerate rhs)) kept
          match sorted with
          | [] => .error .vectorSubscriptOutOfRange
          | best :: _ => .ok best

/-! ## Collaborator objects of the stream -/

/-- An `IMFSample`: the identity of the COM object and the three items
`RequestSample` writes on it. -/
structure IMFSample where
  id : Nat
  sampleTime : Option Int
  sampleDuration : Option Int
  token : Option Nat
  deriving DecidableEq, Repr

inductive MediaEventType where
  | MEStreamTick
  | MEMediaSample
  | other (code : Nat)
  deriving DecidableEq, Repr

/-- A queued notification; `value` is the `IUnknown` payload as it was when the
event was queued. -/
structure IMFMediaEvent where
  eventType : MediaEventType
  guidExtendedType : GUID
  hrStatus : HRESULT
  value : Option IMFSample
  deriving DecidableEq, Repr

structure IMFMediaEventQueue where
  id : Nat
  events : List IMFMediaEvent
  deriving DecidableEq, Repr

inductive AttributeKey where
  | MF_DEVICESTREAM_STREAM_CATEGORY
  | MF_DEVICESTREAM_STREAM_ID
  | MF_DEVICESTREAM_FRAMESERVER_SHARED
  | MF_DEVICESTREAM_ATTRIBUTE_FRAMESOURCE_TYPES
  deriving DecidableEq, Repr

/-- The GUID FB6C4281-0353-11D1-905F-0000C0CC16BA read as one number. -/
def PINNAME_VIDEO_CAPTURE : Nat := 0xFB6C4281035311D1905F0000C0CC16BA

def MFFrameSourceTypes_Color : Nat := 1

structure IMFAttributes where
  id : Nat
  items : List (AttributeKey × Nat)
  deriving DecidableEq, Repr

structure IMFStreamDescriptor where
  streamIdentifier : Nat
  mediaTypes : List IMFMediaType
  currentMediaType : Option IMFMediaType
  items : List (AttributeKey × Nat)
  deriving DecidableEq, Repr

abbrev IMFActivate := Nat

abbrev IMFMediaSource := Nat

/-- One enumerated capture device: `m_ppDevices[i]` with `m_deviceFriendlyNames[i]`. -/
structure Device where
  activate : IMFActivate
  friendlyName : String
  deriving DecidableEq, Repr

/-- The class `DeviceList`; `m_numberDevices` is the length of the list. -/
structure DeviceList where
  devices : List Device
  deriving DecidableEq, Repr

/-- The record in the shared settings segment, with the fields the stream reads. -/
structure CameraSettingsUpdateChannel where
  useOverlayImage : Bool
  sourceCameraName : Option String
  overlayImageSize : Option Nat
  newOverlayImagePosted : Bool
  deriving DecidableEq, Repr

abbrev MF_STREAM_STATE := Int

def MF_STREAM_STATE_STOPPED : MF_STREAM_STATE := 0
def MF_STREAM_STATE_PAUSED : MF_STREAM_STATE := 1
def MF_STREAM_STATE_RUNNING : MF_STREAM_STATE := 2

def VIRTUAL_CAMERA_NAME : String := "PowerToys VideoConference"

/-- The members of `SimpleMediaStream`.  `_settingsUpdateChannel` holds the
mapped settings record while the channel is open. -/
structure SimpleMediaStream where
  _parent : Option Nat
  _isShutdown : Bool
  _isSelected : Bool
  _spEventQueue : Option IMFMediaEventQueue
  _spAttributes : Option IMFAttributes
  _spMediaType : Option IMFMediaType
  _spStreamDesc : Option IMFStreamDescriptor
  _sourceCamera : Option IMFSourceReader
  _currentSourceCameraName : Option String
  _settingsUpdateChannel : Option CameraSettingsUpdateChannel
  _overlayImage : Option IMFSample
  _cameraList : DeviceList
  deriving DecidableEq, Repr

/-- What the calls into Media Foundation, the shared memory channels, the image
loader and the owning source answer.  A call that creates an object answers
with an `HRESULT` and the object it hands out when that `HRESULT` is a success;
on failure the output pointer is null. -/
structure Platform where
  /-- The call `MFCreateAttributes(&pAttributes, 1)` in `EnumerateDevices`. -/
  enumMFCreateAttributes : HRESULT
  /-- The call `pAttributes->SetGUID(...)` in `EnumerateDevices`. -/
  enumSetGUID : HRESULT
  /-- The call `MFEnumDeviceSources`, with the friendly name of every device. -/
  MFEnumDeviceSources : HRESULT × List Device
  ActivateObject : IMFActivate → HRESULT × IMFMediaSource
  /-- The call `MFCreateAttributes(&pAttributes, 2)` in `UpdateSourceCamera`. -/
  MFCreateAttributes2 : HRESULT
  MFCreateSourceReaderFromMediaSource : IMFMediaSource → HRESULT × IMFSourceReader
  /-- The call `MFCreateAttributes(&_spAttributes, 10)`. -/
  MFCreateAttributes10 : HRESULT × IMFAttributes
  /-- The four setter calls of `_SetStreamAttributes`. -/
  SetStreamAttribute : AttributeKey → HRESULT
  MFCreateEventQueue : HRESULT × IMFMediaEventQueue
  EventQueueShutdown : IMFMediaEventQueue → HRESULT
  MFCreateStreamDescriptor : HRESULT
  GetMediaTypeHandler : HRESULT
  /-- The call `spTypeHandler->SetCurrentMediaType`. -/
  HandlerSetCurrentMediaType : HRESULT
  /-- The four setter calls of `_SetStreamDescriptorAttributes`. -/
  SetStreamDescriptorAttribute : AttributeKey → HRESULT
  /-- The call `_sourceCamera->SetCurrentMediaType`. -/
  ReaderSetCurrentMediaType : IMFSourceReader → Option IMFMediaType → HRESULT
  ReadSample : IMFSourceReader → HRESULT × Option IMFSample
  MFCreateSample : HRESULT × IMFSample
  MFGetSystemTime : Int
  SetSampleTime : IMFSample → HRESULT
  SetSampleDuration : IMFSample → HRESULT
  SetUnknown : IMFSample → HRESULT
  QueueEventParamUnk : IMFMediaEventQueue → IMFMediaEvent → HRESULT
  /-- The call `SerializedSharedMemory::open` on the settings endpoint. -/
  openSettingsChannel : Option CameraSettingsUpdateChannel
  /-- The call `SerializedSharedMemory::open` on the overlay image endpoint: its bytes. -/
  openImageChannel : Nat → Option (List Nat)
  /-- Whether `SHCreateMemStream` hands out a stream for these bytes. -/
  SHCreateMemStream : List Nat → Bool
  LoadImageAsSample : List Nat → Option IMFMediaType → Option IMFSample
  /-- Modelled from the spec: `SimpleMediaSource::Shutdown` of the owning source,
  whose file is not part of the sources at hand ("requests shutdown of the
  owning source"); its effect on this stream is left open. -/
  parentShutdown : SimpleMediaStream → SimpleMediaStream

/-! ## `DeviceList` (lines 19-109) -/

def DeviceList.Clear (_list : DeviceList) : DeviceList := ⟨[]⟩

/-- Source: `DeviceList::EnumerateDevices`. -/
def DeviceList.EnumerateDevices (P : Platform) (list : DeviceList) : HRESULT × DeviceList :=
  let cleared := list.Clear
  let hr1 := P.enumMFCreateAttributes
  let hr2 := if SUCCEEDED hr1 then P.enumSetGUID else hr1
  let hr3 := if SUCCEEDED hr2 then P.MFEnumDeviceSources.1 else hr2
  if FAILED hr3 then (hr3, cleared) else (hr3, ⟨P.MFEnumDeviceSources.2⟩)

def DeviceList.Count (list : DeviceList) : Nat := list.devices.length

/-- Source: `DeviceList::GetDevice`; the out pointer is written on success only. -/
def DeviceList.GetDevice (list : DeviceList) (index : Nat) : HRESULT × Option IMFActivate :=
  match list.devices.get? index with
  | none => (E_INVALIDARG, none)
  | some d => (S_OK, some d.activate)

/-- Source: `DeviceList::GetDeviceName`; an empty view when out of range. -/
def DeviceList.GetDeviceName (list : DeviceList) (index : Nat) : String :=
  match list.devices.get? index with
  | none => ""
  | some d => d.friendlyName

/-! ## `SimpleMediaStream` (lines 251-758)

The macros `RETURN_IF_FAILED_WITH_LOGGING(val)` and `RETURN_IF_FAILED(val)` come
from headers outside this file; they are read as
`hr = (val); if (FAILED(hr)) return hr;`. -/

/-- Source: `_CheckShutdownRequiresLock`. -/
def SimpleMediaStream._CheckShutdownRequiresLock (s : SimpleMediaStream) : HRESULT :=
  if s._isShutdown then MF_E_SHUTDOWN
  else if s._spEventQueue = none then E_UNEXPECTED
  else S_OK

/-- The four attributes both attribute setters write, in source order. -/
def streamAttributeValues : List (AttributeKey × Nat) :=
  [(.MF_DEVICESTREAM_STREAM_CATEGORY, PINNAME_VIDEO_CAPTURE),
   (.MF_DEVICESTREAM_STREAM_ID, 0),
   (.MF_DEVICESTREAM_FRAMESERVER_SHARED, 1),
   (.MF_DEVICESTREAM_ATTRIBUTE_FRAMESOURCE_TYPES, MFFrameSourceTypes_Color)]

/-- A run of `RETURN_IF_FAILED_WITH_LOGGING(store->Set...(key, value))` lines:
stops at the first failure, returns the last `hr`. -/
def setItems (hrOf : AttributeKey → HRESULT) :
    List (AttributeKey × Nat) → HRESULT → List (AttributeKey × Nat) →
      HRESULT × List (AttributeKey × Nat)
  | [], hr, store => (hr, store)
  | (k, v) :: rest, _, store =>
    if FAILED (hrOf k) then (hrOf k, store)
    else setItems hrOf rest (hrOf k) (store.filter (fun e => decide (e.1 ≠ k)) ++ [(k, v)])

/-- Source: `_SetStreamAttributes`. -/
def _SetStreamAttributes (P : Platform) (pAttributeStore : Option IMFAttributes) :
    HRESULT × Option IMFAttributes :=
  match pAttributeStore with
  | none => (E_INVALIDARG, none)
  | some store =>
    let r := setItems P.SetStreamAttribute streamAttributeValues S_OK store.items
    (r.1, some { store with items := r.2 })

/-- Source: `_SetStreamDescriptorAttributes`. -/
def _SetStreamDescriptorAttributes (P : Platform) (pAttributeStore : Option IMFStreamDescriptor) :
    HRESULT × Option IMFStreamDescriptor :=
  match pAttributeStore with
  | none => (E_INVALIDARG, none)
  | some store =>
    let r := setItems P.SetStreamDescriptorAttribute streamAttributeValues S_OK store.items
    (r.1, some { store with items := r.2 })

/-- The first loop of `UpdateSourceCamera` (lines 558-567): the first device
whose name is the requested one. -/
def findRequestedCamera (list : DeviceList) (newCameraName : String) : Option Device :=
  list.devices.find? (fun d => decide (d.friendlyName = newCameraName))

/-- The test of the second loop (lines 575-576). -/
def isFallbackCamera (currentSourceCameraName : Option String) (camName : String) : Bool :=
  let differentCamera : Bool :=
    currentSourceCameraName.isSome && decide (some camName ≠ currentSourceCameraName)
  decide (camName ≠ VIRTUAL_CAMERA_NAME) && (differentCamera || !currentSourceCameraName.isSome)

/-- The second loop of `UpdateSourceCamera` (lines 572-583): the first device
that passes `isFallbackCamera`. -/
def findFallbackCamera (list : DeviceList) (currentSourceCameraName : Option String) :
    Option Device :=
  list.devices.find? (fun d => isFallbackCamera currentSourceCameraName d.friendlyName)

/-- One statement of a function body: the `HRESULT` it leaves in `hr` and the
stream after it, or undefined behaviour. -/
abbrev Step := SimpleMediaStream → Except Fault (HRESULT × SimpleMediaStream)

/-- A run of statements each wrapped in `RETURN_IF_FAILED_WITH_LOGGING`, followed
by `return hr`: the first failing `HRESULT` ends the run. -/
def runSteps : List Step → HRESULT → SimpleMediaStream → Except Fault (HRESULT × SimpleMediaStream)
  | [], hr, s => .ok (hr, s)
  | step :: rest, _, s =>
    match step s with
    | .error f => .error f
    | .ok r => if FAILED r.1 then .ok r else runSteps rest r.1 r.2

/-- Lines 591-593: `webcamSourceActivator->ActivateObject`. -/
def stepActivateObject (P : Platform) (webcamSourceActivator : IMFActivate) : Step :=
  fun s => .ok ((P.ActivateObject webcamSourceActivator).1, s)

/-- Lines 597-599: `hr = MFCreateAttributes(&pAttributes, 2); if (SUCCEEDED(hr))`. -/
def stepCreateReaderAttributes (P : Platform) : Step :=
  fun s => .ok (P.MFCreateAttributes2, s)

/-- Lines 603-609: the reader is created into `_sourceCamera` (its `HRESULT` is
not looked at), `_spAttributes` is reset, the best media type of the reader is
stored, and `MFCreateAttributes(&_spAttributes, 10)` is checked. -/
def stepCreateReaderAndSelect (P : Platform) (webcamSourceActivator : IMFActivate) : Step :=
  fun s =>
    let rd := P.MFCreateSourceReaderFromMediaSource (P.ActivateObject webcamSourceActivator).2
    let sourceCamera : Option IMFSourceReader := if FAILED rd.1 then none else some rd.2
    match SelectBestMediaType sourceCamera with
    | .error f => .error f
    | .ok best =>
      .ok (P.MFCreateAttributes10.1,
        { s with
          _sourceCamera := sourceCamera
          _spMediaType := some best
          _spAttributes :=
            if FAILED P.MFCreateAttributes10.1 then none else some P.MFCreateAttributes10.2 })

/-- Line 610: `_SetStreamAttributes(_spAttributes.Get())`. -/
def stepSetStreamAttributes (P : Platform) : Step :=
  fun s =>
    .ok ((_SetStreamAttributes P s._spAttributes).1,
      { s with _spAttributes := (_SetStreamAttributes P s._spAttributes).2 })

/-- Lines 611-616: the old event queue is shut down and released, a new one is
created. -/
def stepCreateEventQueue (P : Platform) : Step :=
  fun s =>
    .ok (P.MFCreateEventQueue.1,
      { s with
        _spEventQueue :=
          if FAILED P.MFCreateEventQueue.1 then none else some P.MFCreateEventQueue.2 })

/-- Lines 617-619: `_spStreamDesc.Reset()` and `MFCreateStreamDescriptor` on the
one media type `_spMediaType`. -/
def stepCreateStreamDescriptor (P : Platform) : Step :=
  fun s =>
    .ok (P.MFCreateStreamDescriptor,
      { s with
        _spStreamDesc :=
          if FAILED P.MFCreateStreamDescriptor then none
          else some
            { streamIdentifier := 0, mediaTypes := s._spMediaType.toList,
              currentMediaType := none, items := [] } })

/-- Line 621: `_spStreamDesc->GetMediaTypeHandler`. -/
def stepGetMediaTypeHandler (P : Platform) : Step :=
  fun s =>
    match s._spStreamDesc with
    | none => .error .nullDereference
    | some _ => .ok (P.GetMediaTypeHandler, s)

/-- Line 622: `spTypeHandler->SetCurrentMediaType(_spMediaType.Get())`. -/
def stepHandlerSetCurrentMediaType (P : Platform) : Step :=
  fun s =>
    match s._spStreamDesc with
    | none => .error .nullDereference
    | some desc =>
      .ok (P.HandlerSetCurrentMediaType,
        if FAILED P.HandlerSetCurrentMediaType then s
        else { s with _spStreamDesc := some { desc with currentMediaType := s._spMediaType } })

/-- Line 623: `_SetStreamDescriptorAttributes(_spStreamDesc.Get())`. -/
def stepSetStreamDescriptorAttributes (P : Platform) : Step :=
  fun s =>
    .ok ((_SetStreamDescriptorAttributes P s._spStreamDesc).1,
      { s with _spStreamDesc := (_SetStreamDescriptorAttributes P s._spStreamDesc).2 })

/-- Line 624: `_sourceCamera->SetCurrentMediaType(..., _spMediaType.Get())`. -/
def stepReaderSetCurrentMediaType (P : Platform) : Step :=
  fun s =>
    match s._sourceCamera with
    | none => .error .nullDereference
    | some reader =>
      .ok (P.ReaderSetCurrentMediaType reader s._spMediaType,
        if FAILED (P.ReaderSetCurrentMediaType reader s._spMediaType) then s
        else { s with _sourceCamera := some { reader with currentMediaType := s._spMediaType } })

/-- Lines 589-627 of `UpdateSourceCamera`: activation of the chosen device and
the rebuild of reader, media type, attributes, event queue and descriptor. -/
def activateAndRebuild (P : Platform) (s : SimpleMediaStream) (webcamSourceActivator : IMFActivate) :
    Except Fault (HRESULT × SimpleMediaStream) :=
  runSteps
    [stepActivateObject P webcamSourceActivator,
     stepCreateReaderAttributes P,
     stepCreateReaderAndSelect P webcamSourceActivator,
     stepSetStreamAttributes P,
     stepCreateEventQueue P,
     stepCreateStreamDescriptor P,
     stepGetMediaTypeHandler P,
     stepHandlerSetCurrentMediaType P,
     stepSetStreamDescriptorAttributes P,
     stepReaderSetCurrentMediaType P]
    S_OK s

/-- Source: `SimpleMediaStream::UpdateSourceCamera`. -/
def SimpleMediaStream.UpdateSourceCamera (P : Platform) (s : SimpleMediaStream)
    (newCameraName : String) : Except Fault (HRESULT × SimpleMediaStream) :=
  let enumerated := DeviceList.EnumerateDevices P s._cameraList.Clear
  let s0 : SimpleMediaStream := { s with _cameraList := enumerated.2 }
  if FAILED enumerated.1 then .ok (enumerated.1, s0)
  else
    match findRequestedCamera s0._cameraList newCameraName with
    | some d =>
      activateAndRebuild P { s0 with _currentSourceCameraName := some newCameraName } d.activate
    | none =>
      match findFallbackCamera s0._cameraList s0._currentSourceCameraName with
      | some d =>
        activateAndRebuild P { s0 with _currentSourceCameraName := some d.friendlyName } d.activate
      | none => .ok (E_ABORT, s0)

/-- The name test of `SyncCurrentSettings` (lines 648-656): the requested camera
name when one is set and differs from the active one (`cameraNameUpdated`). -/
def updatedCameraName (settings : CameraSettingsUpdateChannel)
    (currentSourceCameraName : Option String) : Option String :=
  match settings.sourceCameraName with
  | none => none
  | some newCameraNameView =>
    if currentSourceCameraName.isSome = false ∨ currentSourceCameraName ≠ some newCameraNameView
    then some newCameraNameView else none

/-- Lines 657-661: the camera switch of a refresh, and `cameraUpdated`. -/
def syncCamera (P : Platform) (s : SimpleMediaStream) (settings : CameraSettingsUpdateChannel) :
    Except Fault (Bool × SimpleMediaStream) :=
  match updatedCameraName settings s._currentSourceCameraName with
  | none => .ok (false, s)
  | some newCameraName =>
    match s.UpdateSourceCamera P newCameraName with
    | .error f => .error f
    | .ok r => .ok (SUCCEEDED r.1, r.2)

/-- Lines 663-698: the overlay image part of a refresh. -/
def syncOverlayImage (P : Platform) (s : SimpleMediaStream)
    (settings : CameraSettingsUpdateChannel) (cameraUpdated : Bool) : SimpleMediaStream :=
  match settings.overlayImageSize with
  | none => s
  | some overlayImageSize =>
    if settings.newOverlayImagePosted || s._overlayImage.isNone || cameraUpdated then
      match P.openImageChannel overlayImageSize with
      | none => s
      | some imageMemory =>
        if P.SHCreateMemStream imageMemory = false then s
        else
          match P.LoadImageAsSample imageMemory s._spMediaType with
          | some imageSample =>
            { s with
              _overlayImage := some imageSample
              _settingsUpdateChannel := some { settings with newOverlayImagePosted := false } }
          | none => s
    else s

/-- Source: `SimpleMediaStream::SyncCurrentSettings`; the result is
`webcamDisabled`. -/
def SimpleMediaStream.SyncCurrentSettings (P : Platform) (s : SimpleMediaStream) :
    Except Fault (Bool × SimpleMediaStream) :=
  let s0 : SimpleMediaStream :=
    if s._settingsUpdateChannel.isSome = false then
      { s with _settingsUpdateChannel := P.openSettingsChannel }
    else s
  match s0._settingsUpdateChannel with
  | none => .ok (false, s0)
  | some settings =>
    match syncCamera P s0 settings with
    | .error f => .error f
    | .ok r => .ok (settings.useOverlayImage, syncOverlayImage P r.2 settings r.1)

/-- Mutations of the sample `outputSample` points to are visible through
`_overlayImage` when that is the object pointed to. -/
def storeOutputSample (s : SimpleMediaStream) (isOverlay : Bool) (outputSample : IMFSample) :
    SimpleMediaStream :=
  if isOverlay then { s with _overlayImage := some outputSample } else s

/-- Lines 444-457 of `RequestSample`: the optional tick and the sample event. -/
def queueSample (P : Platform) (s : SimpleMediaStream) (noSampleAvailable : Bool)
    (outputSample : IMFSample) : Except Fault (HRESULT × SimpleMediaStream) :=
  match s._spEventQueue with
  | none => .error .nullDereference
  | some queue =>
    let tick : IMFMediaEvent := ⟨.MEStreamTick, GUID_NULL, S_OK, none⟩
    let hrTick := if noSampleAvailable then P.QueueEventParamUnk queue tick else S_OK
    if FAILED hrTick then .ok (hrTick, s)
    else
      let queue1 : IMFMediaEventQueue :=
        if noSampleAvailable then { queue with events := queue.events ++ [tick] } else queue
      let sample : IMFMediaEvent := ⟨.MEMediaSample, GUID_NULL, S_OK, some outputSample⟩
      let hrSample := P.QueueEventParamUnk queue1 sample
      if FAILED hrSample then .ok (hrSample, { s with _spEventQueue := some queue1 })
      else .ok (S_OK, { s with
        _spEventQueue := some { queue1 with events := queue1.events ++ [sample] } })

/-- Lines 437-442 of `RequestSample`: time, duration and token of the sample. -/
def stampSample (P : Platform) (outputSample : IMFSample) (pToken : Option Nat) :
    HRESULT × IMFSample :=
  if FAILED (P.SetSampleTime outputSample) then (P.SetSampleTime outputSample, outputSample)
  else
    let o1 : IMFSample := { outputSample with sampleTime := some P.MFGetSystemTime }
    if FAILED (P.SetSampleDuration o1) then (P.SetSampleDuration o1, o1)
    else
      let o2 : IMFSample := { o1 with sampleDuration := some 333333 }
      match pToken with
      | none => (P.SetSampleDuration o1, o2)
      | some token =>
        if FAILED (P.SetUnknown o2) then (P.SetUnknown o2, o2)
        else (P.SetUnknown o2, { o2 with token := some token })

/-- Lines 437-457 of `RequestSample` for the sample `outputSample` points to;
`isOverlay` tells whether that is the object `_overlayImage` holds. -/
def stampAndQueue (P : Platform) (s : SimpleMediaStream) (pToken : Option Nat)
    (isOverlay noSampleAvailable : Bool) (outputSample : IMFSample) :
    Except Fault (HRESULT × SimpleMediaStream) :=
  let stamped := stampSample P outputSample pToken
  let s1 := storeOutputSample s isOverlay stamped.2
  if FAILED stamped.1 then .ok (stamped.1, s1)
  else queueSample P s1 noSampleAvailable stamped.2

/-- Source: `SimpleMediaStream::RequestSample`; `pToken = none` is a null token. -/
def SimpleMediaStream.RequestSample (P : Platform) (s : SimpleMediaStream) (pToken : Option Nat) :
    Except Fault (HRESULT × SimpleMediaStream) :=
  if FAILED s._CheckShutdownRequiresLock then .ok (s._CheckShutdownRequiresLock, s)
  else
    match s.SyncCurrentSettings P with
    | .error f => .error f
    | .ok (disableWebcam, s1) =>
      match s1._sourceCamera with
      | none => .error .nullDereference
      | some sourceCamera =>
        let read := P.ReadSample sourceCamera
        if FAILED read.1 then .ok (read.1, s1)
        else
          let outputSample : Option IMFSample := if disableWebcam then s1._overlayImage else read.2
          match outputSample with
          | some o => stampAndQueue P s1 pToken disableWebcam false o
          | none =>
            if FAILED P.MFCreateSample.1 then .ok (P.MFCreateSample.1, s1)
            else stampAndQueue P s1 pToken false true P.MFCreateSample.2

/-- Source: `SimpleMediaStream::SetStreamState`. -/
def SimpleMediaStream.SetStreamState (P : Platform) (s : SimpleMediaStream)
    (state : MF_STREAM_STATE) : Except Fault (HRESULT × SimpleMediaStream) :=
  if FAILED s._CheckShutdownRequiresLock then .ok (s._CheckShutdownRequiresLock, s)
  else if state = MF_STREAM_STATE_PAUSED then .ok (S_OK, s)
  else if state = MF_STREAM_STATE_RUNNING then .ok (S_OK, { s with _isSelected := true })
  else if state = MF_STREAM_STATE_STOPPED then
    match s._parent with
    | none => .error .nullDereference
    | some _ => .ok (S_OK, { P.parentShutdown s with _isSelected := false })
  else .ok (MF_E_INVALID_STATE_TRANSITION, { s with _isSelected := false })

/-- Source: `SimpleMediaStream::GetStreamState`; the second component is what
is written to `*pState`. -/
def SimpleMediaStream.GetStreamState (s : SimpleMediaStream) : HRESULT × Option MF_STREAM_STATE :=
  if FAILED s._CheckShutdownRequiresLock then (s._CheckShutdownRequiresLock, none)
  else (S_OK, some (if s._isSelected then MF_STREAM_STATE_RUNNING else MF_STREAM_STATE_STOPPED))

/-- Source: `SimpleMediaStream::GetStreamDescriptor`.  The argument is `none` for
a null `ppStreamDescriptor` and `some v` for a slot that holds `v`; the result
is the `HRESULT`, the slot after the call and the stream. -/
def SimpleMediaStream.GetStreamDescriptor (s : SimpleMediaStream)
    (ppStreamDescriptor : Option (Option IMFStreamDescriptor)) :
    HRESULT × Option (Option IMFStreamDescriptor) × SimpleMediaStream :=
  match ppStreamDescriptor with
  | none => (E_POINTER, none, s)
  | some _ =>
    if FAILED s._CheckShutdownRequiresLock then (s._CheckShutdownRequiresLock, some none, s)
    else
      match s._spStreamDesc with
      | some desc => (S_OK, some (some desc), s)
      | none => (E_UNEXPECTED, some none, s)

/-- Source: `SimpleMediaStream::Shutdown`. -/
def SimpleMediaStream.Shutdown (P : Platform) (s : SimpleMediaStream) :
    HRESULT × SimpleMediaStream :=
  let hr : HRESULT :=
    match s._spEventQueue with
    | some queue => P.EventQueueShutdown queue
    | none => S_OK
  (hr, { s with
    _isShutdown := true
    _parent := none
    _spEventQueue := none
    _spAttributes := none
    _spMediaType := none
    _spStreamDesc := none
    _sourceCamera := none
    _currentSourceCameraName := none
    _settingsUpdateChannel := none
    _overlayImage := none
    _isSelected := false })

/-- The three `continue` tests of the loop body, negated. -/
def passesFilter (defaultAspectRatio : Int) (t : IMFMediaType) : Prop :=
  GetGUID t = MFVideoFormat_RGB24 ∧ areSame (aspectRatio t) defaultAspectRatio = true ∧
    F32.lt (typeFramerate t) minimalAcceptableFramerate = false

/-- The members a camera switch never writes. -/
def sameOutsideSession (s s1 : SimpleMediaStream) : Prop :=
  s1._overlayImage = s._overlayImage ∧ s1._settingsUpdateChannel = s._settingsUpdateChannel ∧
    s1._currentSourceCameraName = s._currentSourceCameraName ∧
    s1._isShutdown = s._isShutdown ∧ s1._isSelected = s._isSelected ∧
    s1._parent = s._parent ∧ s1._cameraList = s._cameraList

/-- The filter of the loop body as the claims word it: supported subtype,
aspect ratio matching the reference, and a frame rate of at least 15 fps. -/
def eligible (reference t : IMFMediaType) : Prop :=
  GetGUID t = MFVideoFormat_RGB24 ∧
    areSame (aspectRatio t) (aspectRatio reference) = true ∧
    F32.ge (typeFramerate t) minimalAcceptableFramerate = true

instance instDecidableEligible (reference t : IMFMediaType) : Decidable (eligible reference t) := by
  unfold eligible; infer_instance

/-- Test media type: RGB24 with the given frame size and frame rate. -/
def rgb24 (w h num den : Nat) : IMFMediaType :=
  ⟨some MFVideoFormat_RGB24, some (w, h), some (num, den)⟩

/-- Test platform: every call succeeds; three devices are enumerated, the
first of which is the virtual camera itself; no live frame is ready; the
settings channel asks for the overlay and names no camera. -/
def demoPlatform : Platform where
  enumMFCreateAttributes := S_OK
  enumSetGUID := S_OK
  MFEnumDeviceSources :=
    (S_OK, [⟨1, "PowerToys VideoConference"⟩, ⟨2, "Integrated Webcam"⟩, ⟨3, "USB Camera"⟩])
  ActivateObject := fun a => (S_OK, a)
  MFCreateAttributes2 := S_OK
  MFCreateSourceReaderFromMediaSource := fun source =>
    (S_OK, ⟨source, some (rgb24 640 480 30 1), [rgb24 640 480 30 1, rgb24 1280 960 30 1]⟩)
  MFCreateAttributes10 := (S_OK, ⟨10, []⟩)
  SetStreamAttribute := fun _ => S_OK
  MFCreateEventQueue := (S_OK, ⟨7, []⟩)
  EventQueueShutdown := fun _ => S_OK
  MFCreateStreamDescriptor := S_OK
  GetMediaTypeHandler := S_OK
  HandlerSetCurrentMediaType := S_OK
  SetStreamDescriptorAttribute := fun _ => S_OK
  ReaderSetCurrentMediaType := fun _ _ => S_OK
  ReadSample := fun _ => (S_OK, none)
  MFCreateSample := (S_OK, ⟨100, none, none, none⟩)
  MFGetSystemTime := 1000
  SetSampleTime := fun _ => S_OK
  SetSampleDuration := fun _ => S_OK
  SetUnknown := fun _ => S_OK
  QueueEventParamUnk := fun _ _ => S_OK
  openSettingsChannel := some ⟨true, none, none, false⟩
  openImageChannel := fun _ => some [66, 77]
  SHCreateMemStream := fun _ => true
  LoadImageAsSample := fun _ _ => some ⟨51, none, none, none⟩
  parentShutdown := fun s => s

/-- Test stream: active and running on "Integrated Webcam", with an overlay
frame cached, an open settings channel that asks for the overlay, and an empty
notification queue. -/
def demoStream : SimpleMediaStream where
  _parent := some 1
  _isShutdown := false
  _isSelected := true
  _spEventQueue := some ⟨5, []⟩
  _spAttributes := some ⟨9, []⟩
  _spMediaType := some (rgb24 640 480 30 1)
  _spStreamDesc := some ⟨0, [rgb24 640 480 30 1], some (rgb24 640 480 30 1), []⟩
  _sourceCamera := some ⟨2, some (rgb24 640 480 30 1), [rgb24 640 480 30 1]⟩
  _currentSourceCameraName := some "Integrated Webcam"
  _settingsUpdateChannel := some ⟨true, some "Integrated Webcam", none, false⟩
  _overlayImage := some ⟨50, none, none, none⟩
  _cameraList := ⟨[]⟩

def E_FAIL : HRESULT := -2147467259

/-- Test platform on which activating a device fails. -/
def activationFails : Platform :=
  { demoPlatform with ActivateObject := fun _ => (E_FAIL, 0) }

/-- Test platform on which `MFCreateStreamDescriptor` fails. -/
def descriptorFails : Platform :=
  { demoPlatform with MFCreateStreamDescriptor := E_FAIL }

/-- Test platform that enumerates only the virtual camera and the camera of
`demoStream`. -/
def noOtherCamera : Platform :=
  { demoPlatform with
    MFEnumDeviceSources := (S_OK, [⟨1, "PowerToys VideoConference"⟩, ⟨2, "Integrated Webcam"⟩]) }

/-- Test stream whose settings channel announces a newly posted overlay image
of two bytes. -/
def overlayPosted : SimpleMediaStream :=
  { demoStream with
    _settingsUpdateChannel := some ⟨true, some "Integrated Webcam", some 2, true⟩ }

/-- The settings record a refresh of `s` reads: the one of the open channel, or
the one of the channel the refresh opens. -/
def settingsSnapshot (P : Platform) (s : SimpleMediaStream) : Option CameraSettingsUpdateChannel :=
  if s._settingsUpdateChannel.isSome = false then P.openSettingsChannel
  else s._settingsUpdateChannel

/-- Test platform on which `MFCreateEventQueue` fails. -/
def queueCreationFails : Platform :=
  { demoPlatform with MFCreateEventQueue := (E_FAIL, ⟨7, []⟩) }

/-- Test stream whose settings channel asks for "Front Camera", a camera the
test platform does not enumerate. -/
def wantsFrontCamera : SimpleMediaStream :=
  { demoStream with
    _settingsUpdateChannel := some ⟨true, some "Front Camera", none, false⟩ }

/-- Test stream whose settings channel asks for "USB Camera", which the test
platform enumerates, while "Integrated Webcam" is active. -/
def wantsUsbCamera : SimpleMediaStream :=
  { demoStream with
    _settingsUpdateChannel := some ⟨true, some "USB Camera", none, false⟩ }

/-- The session the test platform builds on "USB Camera", under the settings
record `settings`. -/
def onUsbCamera (settings : CameraSettingsUpdateChannel) : SimpleMediaStream :=
  { demoStream with
    _spEventQueue := some ⟨7, []⟩
    _spAttributes := some ⟨10, streamAttributeValues⟩
    _spMediaType := some (rgb24 1280 960 30 1)
    _spStreamDesc :=
      some ⟨0, [rgb24 1280 960 30 1], some (rgb24 1280 960 30 1), streamAttributeValues⟩
    _sourceCamera :=
      some ⟨3, some (rgb24 1280 960 30 1), [rgb24 640 480 30 1, rgb24 1280 960 30 1]⟩
    _currentSourceCameraName := some "USB Camera"
    _settingsUpdateChannel := some settings
    _cameraList :=
      ⟨[⟨1, "PowerToys VideoConference"⟩, ⟨2, "Integrated Webcam"⟩, ⟨3, "USB Camera"⟩]⟩ }

/-- The precondition under which a refresh settles: the settings name no camera,
or the active one, or enumeration succeeds and lists a device of the requested
name. -/
def desiredCameraResolvable (P : Platform) (s : SimpleMediaStream) : Bool :=
  match settingsSnapshot P s with
  | none => true
  | some settings =>
    match updatedCameraName settings s._currentSourceCameraName with
    | none => true
    | some newCameraName =>
      !FAILED (DeviceList.EnumerateDevices P s._cameraList.Clear).1 &&
        (findRequestedCamera (DeviceList.EnumerateDevices P s._cameraList.Clear).2
          newCameraName).isSome

/-- Test platform on which `MFCreateAttributes(&pAttributes, 2)` fails. -/
def readerAttributesFail : Platform :=
  { demoPlatform with MFCreateAttributes2 := E_FAIL }

/-- The outcome of the two loops of `UpdateSourceCamera` (lines 556-584): the
device chosen and the name stored in `_currentSourceCameraName`, which is the
requested name for a device found by name and the name of the device for a
fallback device; `none` when `webcamIsChosen` stays false. -/
def resolvedCamera (list : DeviceList) (currentSourceCameraName : Option String)
    (newCameraName : String) : Option (Device × String) :=
  match findRequestedCamera list newCameraName with
  | some d => some (d, newCameraName)
  | none =>
    match findFallbackCamera list currentSourceCameraName with
    | some d => some (d, d.friendlyName)
    | none => none

/-! ## Theorems -/

section FormatSelector

theorem F32.lt_false_iff_ge {x y : F32} (hx : x ≠ .nan) (hy : y ≠ .nan) :
    F32.lt x y = false ↔ F32.ge x y = true := by
  cases x <;> cases y <;> simp_all [F32.lt, F32.ge]

theorem F32.ge_refl {x : F32} (hx : x ≠ .nan) : F32.ge x x = true := by
  cases x <;> simp_all [F32.ge]

theorem F32.ge_trans {x y z : F32} (h1 : F32.ge x y = true) (h2 : F32.ge y z = true) :
    F32.ge x z = true := by
  cases x <;> cases y <;> cases z <;> simp_all [F32.ge]
  omega

theorem F32.ge_of_gt {x y : F32} (h : F32.gt x y = true) : F32.ge x y = true := by
  cases x <;> cases y <;> simp_all [F32.gt, F32.lt, F32.ge]
  omega

theorem F32.not_gt_of_ge {x y : F32} (h : F32.ge x y = true) : F32.gt y x = false := by
  cases x <;> cases y <;> simp_all [F32.gt, F32.lt, F32.ge]

theorem areSame_iff (a b : Int) : areSame a b = true ↔ a = b := by
  unfold areSame
  rw [decide_eq_true_iff]
  constructor
  · intro h
    have h0 : |a - b| < 1 := by
      by_contra hc
      have : 1 ≤ |a - b| := by omega
      omega
    have := abs_lt.mp h0
    omega
  · intro h
    subst h
    simp

theorem stdSortInsert_mem (comp : IMFMediaType → IMFMediaType → Bool) (x y : IMFMediaType)
    (l : List IMFMediaType) : y ∈ stdSortInsert comp x l ↔ y = x ∨ y ∈ l := by
  induction l with
  | nil => simp [stdSortInsert]
  | cons z zs ih =>
    unfold stdSortInsert
    split
    · simp only [List.mem_cons, ih]
      tauto
    · simp only [List.mem_cons]

theorem stdSort_mem (comp : IMFMediaType → IMFMediaType → Bool) (y : IMFMediaType)
    (l : List IMFMediaType) : y ∈ stdSort comp l ↔ y ∈ l := by
  induction l with
  | nil => simp [stdSort]
  | cons z zs ih => simp [stdSort, stdSortInsert_mem, ih]

/-- The first element of the sorted vector has a key no other element exceeds. -/
theorem stdSort_head_ge (key : IMFMediaType → F32) (l : List IMFMediaType)
    (hnan : ∀ x ∈ l, key x ≠ .nan) (h : IMFMediaType) (tl : List IMFMediaType)
    (hs : stdSort (fun lhs rhs => F32.gt (key lhs) (key rhs)) l = h :: tl) :
    ∀ x ∈ l, F32.ge (key h) (key x) = true := by
  induction l generalizing h tl with
  | nil => simp [stdSort] at hs
  | cons z zs ih =>
    have hz : key z ≠ .nan := hnan z (List.mem_cons_self _ _)
    have hzs : ∀ x ∈ zs, key x ≠ .nan := fun x hx => hnan x (List.mem_cons_of_mem _ hx)
    simp only [stdSort] at hs
    cases hsort : stdSort (fun lhs rhs => F32.gt (key lhs) (key rhs)) zs with
    | nil =>
      have hnil : zs = [] := by
        cases zs with
        | nil => rfl
        | cons a as =>
          have : a ∈ stdSort (fun lhs rhs => F32.gt (key lhs) (key rhs)) (a :: as) :=
            (stdSort_mem _ a (a :: as)).2 (List.mem_cons_self _ _)
          rw [hsort] at this
          cases this
      rw [hsort] at hs
      simp only [stdSortInsert, List.cons.injEq] at hs
      subst hnil
      intro x hx
      simp only [List.mem_singleton] at hx
      subst hx
      rw [← hs.1]
      exact F32.ge_refl hz
    | cons a as =>
      have iha := ih hzs a as hsort
      have hamem : a ∈ zs := (stdSort_mem _ a zs).1 (by rw [hsort]; exact List.mem_cons_self _ _)
      rw [hsort] at hs
      simp only [stdSortInsert] at hs
      by_cases hc : F32.gt (key a) (key z) = true
      · rw [if_pos hc] at hs
        simp only [List.cons.injEq] at hs
        intro x hx
        rw [← hs.1]
        rcases List.mem_cons.1 hx with hx | hx
        · subst hx
          exact F32.ge_of_gt hc
        · exact iha x hx
      · rw [if_neg hc] at hs
        simp only [List.cons.injEq] at hs
        have hza : F32.ge (key z) (key a) = true := by
          have : F32.lt (key z) (key a) = false := by
            simpa [F32.gt] using hc
          exact (F32.lt_false_iff_ge hz (hzs a hamem)).1 this
        intro x hx
        rw [← hs.1]
        rcases List.mem_cons.1 hx with hx | hx
        · subst hx
          exact F32.ge_refl hz
        · exact F32.ge_trans hza (iha x hx)

/-- Whatever the loop keeps was kept before or is a native type that passed
every test of the body. -/
theorem selectLoop_sound (dar : Int) (l : List IMFMediaType) :
    ∀ (acc out : List IMFMediaType × Nat), selectLoop dar l acc = .ok out →
      ∀ t ∈ out.1, t ∈ acc.1 ∨ (t ∈ l ∧ (MFGetAttributeSize t).2 ≠ 0 ∧ passesFilter dar t) := by
  induction l with
  | nil =>
    intro acc out h t ht
    simp only [selectLoop, Except.ok.injEq] at h
    subst h
    exact Or.inl ht
  | cons n rest ih =>
    intro acc out h t ht
    have lift : (t ∈ acc.1 ∨ (t ∈ rest ∧ (MFGetAttributeSize t).2 ≠ 0 ∧ passesFilter dar t)) →
        (t ∈ acc.1 ∨ (t ∈ n :: rest ∧ (MFGetAttributeSize t).2 ≠ 0 ∧ passesFilter dar t)) := by
      rintro (h1 | ⟨h1, h2⟩)
      · exact Or.inl h1
      · exact Or.inr ⟨List.mem_cons_of_mem _ h1, h2⟩
    unfold selectLoop at h
    split_ifs at h with h0 h1 h2 h3 h4
    · exact lift (ih acc out h t ht)
    · exact lift (ih acc out h t ht)
    · exact lift (ih acc out h t ht)
    · rcases ih _ out h t ht with h5 | h5
      · simp only [List.mem_append, List.mem_singleton] at h5
        rcases h5 with h5 | h5
        · exact Or.inl h5
        · subst h5
          refine Or.inr ⟨List.mem_cons_self _ _, h0, ?_, ?_, ?_⟩
          · simpa using h1
          · simpa using h2
          · simpa using h3
      · exact lift (Or.inr h5)
    · exact lift (ih acc out h t ht)

/-- With every height non-zero the loop runs to its end, `maxResolution` is the
largest resolution among what passed the filter, and every passing type of
that resolution is in `supportedMediaTypes`. -/
theorem selectLoop_complete (dar : Int) (l : List IMFMediaType) :
    ∀ (acc : List IMFMediaType × Nat), (∀ t ∈ l, (MFGetAttributeSize t).2 ≠ 0) →
      ∃ out, selectLoop dar l acc = .ok out ∧ acc.2 ≤ out.2 ∧
        (∀ t ∈ l, passesFilter dar t → curResolutionMult t ≤ out.2) ∧
        (out.2 = acc.2 ∨ ∃ t ∈ l, passesFilter dar t ∧ curResolutionMult t = out.2) ∧
        (∀ t, curResolutionMult t = out.2 →
          ((t ∈ acc.1 ∧ curResolutionMult t = acc.2) ∨ (t ∈ l ∧ passesFilter dar t)) → t ∈ out.1) := by
  induction l with
  | nil =>
    intro acc _
    refine ⟨acc, rfl, le_refl _, ?_, Or.inl rfl, ?_⟩
    · intro t ht
      cases ht
    · rintro t _ (h | ⟨h, _⟩)
      · exact h.1
      · cases h
  | cons n rest ih =>
    intro acc hh
    have hn : (MFGetAttributeSize n).2 ≠ 0 := hh n (List.mem_cons_self _ _)
    have hrest : ∀ t ∈ rest, (MFGetAttributeSize t).2 ≠ 0 :=
      fun t ht => hh t (List.mem_cons_of_mem _ ht)
    have skip : ¬ passesFilter dar n →
        (∃ out, selectLoop dar rest acc = .ok out ∧ acc.2 ≤ out.2 ∧
          (∀ t ∈ rest, passesFilter dar t → curResolutionMult t ≤ out.2) ∧
          (out.2 = acc.2 ∨ ∃ t ∈ rest, passesFilter dar t ∧ curResolutionMult t = out.2) ∧
          (∀ t, curResolutionMult t = out.2 →
            ((t ∈ acc.1 ∧ curResolutionMult t = acc.2) ∨ (t ∈ rest ∧ passesFilter dar t)) →
              t ∈ out.1)) →
        (∃ out, selectLoop dar rest acc = .ok out ∧ acc.2 ≤ out.2 ∧
          (∀ t ∈ n :: rest, passesFilter dar t → curResolutionMult t ≤ out.2) ∧
          (out.2 = acc.2 ∨ ∃ t ∈ n :: rest, passesFilter dar t ∧ curResolutionMult t = out.2) ∧
          (∀ t, curResolutionMult t = out.2 →
            ((t ∈ acc.1 ∧ curResolutionMult t = acc.2) ∨ (t ∈ n :: rest ∧ passesFilter dar t)) →
              t ∈ out.1)) := by
      rintro hnp ⟨out, h1, h2, h3, h4, h5⟩
      refine ⟨out, h1, h2, ?_, ?_, ?_⟩
      · intro t ht hp
        rcases List.mem_cons.1 ht with ht | ht
        · subst ht
          exact absurd hp hnp
        · exact h3 t ht hp
      · rcases h4 with h4 | ⟨t, ht, hp⟩
        · exact Or.inl h4
        · exact Or.inr ⟨t, List.mem_cons_of_mem _ ht, hp⟩
      · rintro t hr (h | ⟨ht, hp⟩)
        · exact h5 t hr (Or.inl h)
        · rcases List.mem_cons.1 ht with ht | ht
          · subst ht
            exact absurd hp hnp
          · exact h5 t hr (Or.inr ⟨ht, hp⟩)
    unfold selectLoop
    rw [if_neg hn]
    by_cases h1 : GetGUID n ≠ MFVideoFormat_RGB24
    · rw [if_pos h1]
      exact skip (fun hp => h1 hp.1) (ih acc hrest)
    rw [if_neg h1]
    by_cases h2 : areSame (aspectRatio n) dar = false
    · rw [if_pos h2]
      exact skip (fun hp => by rw [hp.2.1] at h2; cases h2) (ih acc hrest)
    rw [if_neg h2]
    by_cases h3 : F32.lt (typeFramerate n) minimalAcceptableFramerate = true
    · rw [if_pos h3]
      exact skip (fun hp => by rw [hp.2.2] at h3; cases h3) (ih acc hrest)
    rw [if_neg h3]
    have hpn : passesFilter dar n := ⟨by simpa using h1, by simpa using h2, by simpa using h3⟩
    by_cases h4 : acc.2 ≤ curResolutionMult n
    · rw [if_pos h4]
      obtain ⟨out, e1, e2, e3, e4, e5⟩ := ih (acc.1 ++ [n], curResolutionMult n) hrest
      simp only at e2 e4 e5
      refine ⟨out, e1, le_trans h4 e2, ?_, ?_, ?_⟩
      · intro t ht hp
        rcases List.mem_cons.1 ht with ht | ht
        · subst ht
          exact e2
        · exact e3 t ht hp
      · rcases e4 with e4 | ⟨t, ht, hp⟩
        · exact Or.inr ⟨n, List.mem_cons_self _ _, hpn, e4.symm⟩
        · exact Or.inr ⟨t, List.mem_cons_of_mem _ ht, hp⟩
      · rintro t hr (h | ⟨ht, hp⟩)
        · refine e5 t hr (Or.inl ⟨List.mem_append_left _ h.1, ?_⟩)
          omega
        · rcases List.mem_cons.1 ht with ht | ht
          · subst ht
            refine e5 t hr (Or.inl ⟨by simp, ?_⟩)
            omega
          · exact e5 t hr (Or.inr ⟨ht, hp⟩)
    · rw [if_neg h4]
      obtain ⟨out, e1, e2, e3, e4, e5⟩ := ih acc hrest
      refine ⟨out, e1, e2, ?_, ?_, ?_⟩
      · intro t ht hp
        rcases List.mem_cons.1 ht with ht | ht
        · subst ht
          omega
        · exact e3 t ht hp
      · rcases e4 with e4 | ⟨t, ht, hp⟩
        · exact Or.inl e4
        · exact Or.inr ⟨t, List.mem_cons_of_mem _ ht, hp⟩
      · rintro t hr (h | ⟨ht, hp⟩)
        · exact e5 t hr (Or.inl h)
        · rcases List.mem_cons.1 ht with ht | ht
          · subst ht
            omega
          · exact e5 t hr (Or.inr ⟨ht, hp⟩)

theorem passesFilter_iff_eligible (reference t : IMFMediaType)
    (hnan : typeFramerate t ≠ .nan) :
    passesFilter (aspectRatio reference) t ↔ eligible reference t := by
  unfold passesFilter eligible
  rw [F32.lt_false_iff_ge hnan (by simp [minimalAcceptableFramerate])]

/-- What `SelectBestMediaType` returns is a native type that passed the filter. -/
theorem selectBestMediaType_sound (reader : IMFSourceReader) (current best : IMFMediaType)
    (hcur : reader.currentMediaType = some current)
    (hret : SelectBestMediaType (some reader) = .ok best) :
    best ∈ reader.nativeMediaTypes ∧ (MFGetAttributeSize best).2 ≠ 0 ∧
      passesFilter (aspectRatio current) best := by
  simp only [SelectBestMediaType, hcur] at hret
  split_ifs at hret with h0
  cases hloop : selectLoop (aspectRatio current) reader.nativeMediaTypes ([], 0) with
  | error e => rw [hloop] at hret; cases hret
  | ok out =>
    rw [hloop] at hret
    simp only at hret
    split at hret
    · cases hret
    · rename_i b tl hs
      simp only [Except.ok.injEq] at hret
      subst hret
      have h1 : b ∈ List.filter (fun t => decide (curResolutionMult t = out.2)) out.1 :=
        (stdSort_mem _ b _).1 (by rw [hs]; exact List.mem_cons_self _ _)
      have h2 : b ∈ out.1 := (List.mem_filter.1 h1).1
      rcases selectLoop_sound _ _ _ _ hloop b h2 with h3 | h3
      · cases h3
      · exact h3

/-- The selector on well-formed input: it returns, and what it returns is an
eligible native type of the largest eligible resolution and, at that
resolution, of the largest frame rate. -/
theorem selectBestMediaType_complete (reader : IMFSourceReader) (current : IMFMediaType)
    (hcur : reader.currentMediaType = some current)
    (hheight : (MFGetAttributeSize current).2 ≠ 0)
    (hnative : ∀ t ∈ reader.nativeMediaTypes, (MFGetAttributeSize t).2 ≠ 0)
    (hnan : ∀ t ∈ reader.nativeMediaTypes, typeFramerate t ≠ .nan)
    (hex : ∃ t ∈ reader.nativeMediaTypes, eligible current t) :
    ∃ best, SelectBestMediaType (some reader) = .ok best ∧
      best ∈ reader.nativeMediaTypes ∧ eligible current best ∧
      (∀ t ∈ reader.nativeMediaTypes, eligible current t →
        curResolutionMult t ≤ curResolutionMult best) ∧
      (∀ t ∈ reader.nativeMediaTypes, eligible current t →
        curResolutionMult t = curResolutionMult best →
          F32.ge (typeFramerate best) (typeFramerate t) = true) := by
  obtain ⟨out, e1, -, e3, e4, e5⟩ :=
    selectLoop_complete (aspectRatio current) reader.nativeMediaTypes ([], 0) hnative
  obtain ⟨w, hw, hwe⟩ := hex
  have hwp : passesFilter (aspectRatio current) w :=
    (passesFilter_iff_eligible current w (hnan w hw)).2 hwe
  -- the maximum is attained by a passing native type
  obtain ⟨m, hm, hmp, hmr⟩ : ∃ t ∈ reader.nativeMediaTypes,
      passesFilter (aspectRatio current) t ∧ curResolutionMult t = out.2 := by
    rcases e4 with e4 | e4
    · refine ⟨w, hw, hwp, ?_⟩
      have := e3 w hw hwp
      simp only at e4
      omega
    · exact e4
  have hmk : m ∈ List.filter (fun t => decide (curResolutionMult t = out.2)) out.1 :=
    List.mem_filter.2 ⟨e5 m hmr (Or.inr ⟨hm, hmp⟩), by simpa using hmr⟩
  have hkept : ∀ t, t ∈ List.filter (fun t => decide (curResolutionMult t = out.2)) out.1 →
      t ∈ reader.nativeMediaTypes ∧ passesFilter (aspectRatio current) t ∧
        curResolutionMult t = out.2 := by
    intro t ht
    have h1 := List.mem_filter.1 ht
    rcases selectLoop_sound _ _ _ _ e1 t h1.1 with h3 | h3
    · cases h3
    · exact ⟨h3.1, h3.2.2, by simpa using h1.2⟩
  cases hs : stdSort (fun lhs rhs => F32.gt (typeFramerate lhs) (typeFramerate rhs))
      (List.filter (fun t => decide (curResolutionMult t = out.2)) out.1) with
  | nil =>
    have := (stdSort_mem (fun lhs rhs => F32.gt (typeFramerate lhs) (typeFramerate rhs)) m _).2 hmk
    rw [hs] at this
    cases this
  | cons b tl =>
    have hbk : b ∈ List.filter (fun t => decide (curResolutionMult t = out.2)) out.1 :=
      (stdSort_mem _ b _).1 (by rw [hs]; exact List.mem_cons_self _ _)
    obtain ⟨hb1, hb2, hb3⟩ := hkept b hbk
    have hhead := stdSort_head_ge typeFramerate _
      (fun x hx => hnan x (hkept x hx).1) b tl hs
    refine ⟨b, ?_, hb1, (passesFilter_iff_eligible current b (hnan b hb1)).1 hb2, ?_, ?_⟩
    · simp only [SelectBestMediaType, hcur, if_neg hheight, e1, hs]
    · intro t ht he
      rw [hb3]
      exact e3 t ht ((passesFilter_iff_eligible current t (hnan t ht)).2 he)
    · intro t ht he hr
      apply hhead
      refine List.mem_filter.2 ⟨e5 t (by omega) (Or.inr ⟨ht, ?_⟩), by simpa using (by omega)⟩
      exact (passesFilter_iff_eligible current t (hnan t ht)).2 he

/-! ### C1 -/

/-- C1: whenever `SelectBestMediaType` returns a format for a reader whose current
(reference) format has a non-zero height, the returned format is one of the
native formats, its pixel subtype is RGB24, and its truncated aspect ratio
`width / height` equals the reference aspect ratio within the epsilon of
`areSame` (so the two integer quotients are equal). -/
theorem selectBestMediaType_subtype_and_aspect (reader : IMFSourceReader)
    (current best : IMFMediaType)
    (hcur : reader.currentMediaType = some current)
    (hheight : (MFGetAttributeSize current).2 ≠ 0)
    (hret : SelectBestMediaType (some reader) = .ok best) :
    best ∈ reader.nativeMediaTypes ∧ GetGUID best = MFVideoFormat_RGB24 ∧
      areSame (aspectRatio best) (aspectRatio current) = true ∧
      (MFGetAttributeSize best).1 / (MFGetAttributeSize best).2 =
        (MFGetAttributeSize current).1 / (MFGetAttributeSize current).2 := by
  have _ := hheight
  obtain ⟨h1, -, h2, h3, -⟩ := selectBestMediaType_sound reader current best hcur hret
  refine ⟨h1, h2, h3, ?_⟩
  have := (areSame_iff _ _).1 h3
  unfold aspectRatio at this
  exact_mod_cast this

/-- C1 at a reader offering 640x480 at 30 fps and 1280x960 at 30 fps. -/
theorem selectBestMediaType_subtype_and_aspect_witness :
    GetGUID (rgb24 1280 960 30 1) = MFVideoFormat_RGB24 ∧
      areSame (aspectRatio (rgb24 1280 960 30 1)) (aspectRatio (rgb24 640 480 30 1)) = true :=
  have h := selectBestMediaType_subtype_and_aspect
    ⟨0, some (rgb24 640 480 30 1), [rgb24 640 480 30 1, rgb24 1280 960 30 1]⟩
    (rgb24 640 480 30 1) (rgb24 1280 960 30 1) rfl (by decide) (by decide)
  ⟨h.2.1, h.2.2.1⟩

/-! ### C2 -/

/-- C2 as stated fails: a native list that holds an eligible candidate next to
a type without a frame size makes the loop divide by a zero height, and a
native type with the frame rate `0/0` (NaN, which is not below 15) wins on
resolution although its frame rate is not at least 15 fps. -/
theorem selectBestMediaType_eligible_not_enough :
    (eligible (rgb24 640 480 30 1) (rgb24 640 480 30 1) ∧
      SelectBestMediaType (some ⟨0, some (rgb24 640 480 30 1),
        [rgb24 640 480 30 1, ⟨some MFVideoFormat_RGB24, none, some (30, 1)⟩]⟩) =
        .error .divisionByZero) ∧
    (SelectBestMediaType (some ⟨0, some (rgb24 640 480 30 1),
        [rgb24 640 480 30 1, rgb24 1280 960 0 0]⟩) = .ok (rgb24 1280 960 0 0) ∧
      ¬ eligible (rgb24 640 480 30 1) (rgb24 1280 960 0 0)) := by
  decide

/-- C2 (amended): for a reader whose reference format and native formats all
have a non-zero height and none of whose native formats has the frame rate
`0/0`, and whose native list holds at least one eligible candidate (RGB24,
aspect ratio matching the reference, frame rate at least 15 fps),
`SelectBestMediaType` returns an eligible candidate of the list whose
resolution (64-bit `width * height`) is the maximum over all eligible
candidates and whose frame rate is the highest among the eligible candidates of
that resolution; of two eligible candidates of equal resolution and different
frame rate it never returns the one with the lower frame rate. -/
theorem selectBestMediaType_max_resolution_then_framerate (reader : IMFSourceReader)
    (current : IMFMediaType)
    (hcur : reader.currentMediaType = some current)
    (hheight : (MFGetAttributeSize current).2 ≠ 0)
    (hnative : ∀ t ∈ reader.nativeMediaTypes, (MFGetAttributeSize t).2 ≠ 0)
    (hnan : ∀ t ∈ reader.nativeMediaTypes, typeFramerate t ≠ .nan)
    (hex : ∃ t ∈ reader.nativeMediaTypes, eligible current t) :
    ∃ best, SelectBestMediaType (some reader) = .ok best ∧
      best ∈ reader.nativeMediaTypes ∧ eligible current best ∧
      (∀ t ∈ reader.nativeMediaTypes, eligible current t →
        curResolutionMult t ≤ curResolutionMult best) ∧
      (∀ t ∈ reader.nativeMediaTypes, eligible current t →
        curResolutionMult t = curResolutionMult best →
          F32.ge (typeFramerate best) (typeFramerate t) = true) ∧
      (∀ a ∈ reader.nativeMediaTypes, ∀ b ∈ reader.nativeMediaTypes,
        eligible current a → eligible current b →
        curResolutionMult a = curResolutionMult b →
        F32.lt (typeFramerate a) (typeFramerate b) = true → best ≠ a) := by
  obtain ⟨best, h1, h2, h3, h4, h5⟩ :=
    selectBestMediaType_complete reader current hcur hheight hnative hnan hex
  refine ⟨best, h1, h2, h3, h4, h5, ?_⟩
  intro a _ b hb _ heb hres hlt hbest
  subst hbest
  have h6 := F32.not_gt_of_ge (h5 b hb heb hres.symm)
  rw [F32.gt, hlt] at h6
  cases h6

/-- C2 (amended) at a reader offering 640x480 at 30 fps, 1280x960 at 15 fps and
1280x960 at 30 fps: the last one is returned. -/
theorem selectBestMediaType_max_resolution_then_framerate_witness :
    ∃ best, SelectBestMediaType (some ⟨0, some (rgb24 640 480 30 1),
        [rgb24 640 480 30 1, rgb24 1280 960 15 1, rgb24 1280 960 30 1]⟩) = .ok best ∧
      best ≠ rgb24 1280 960 15 1 :=
  have h := selectBestMediaType_max_resolution_then_framerate
    ⟨0, some (rgb24 640 480 30 1),
      [rgb24 640 480 30 1, rgb24 1280 960 15 1, rgb24 1280 960 30 1]⟩
    (rgb24 640 480 30 1) rfl (by decide) (by decide) (by decide)
    ⟨rgb24 640 480 30 1, by decide, by decide⟩
  h.elim fun best hb =>
    ⟨best, hb.1, hb.2.2.2.2.2 (rgb24 1280 960 15 1) (by decide) (rgb24 1280 960 30 1)
      (by decide) (by decide) (by decide) (by decide) (by decide)⟩

/-! ### C3 -/

/-- C3 as stated fails: with a 1280x960 candidate at 10 fps and a 640x480
candidate at 30 fps, both RGB24 and of the reference aspect ratio, the 10 fps
candidate is skipped by the minimum frame rate test and the selector returns the
lower-resolution 30 fps candidate. -/
theorem selectBestMediaType_skips_10fps :
    typeFramerate (rgb24 1280 960 10 1) = .fin (10 * F32.SCALE) ∧
    typeFramerate (rgb24 640 480 30 1) = .fin (30 * F32.SCALE) ∧
    GetGUID (rgb24 1280 960 10 1) = MFVideoFormat_RGB24 ∧
    areSame (aspectRatio (rgb24 1280 960 10 1)) (aspectRatio (rgb24 640 480 30 1)) = true ∧
    curResolutionMult (rgb24 640 480 30 1) < curResolutionMult (rgb24 1280 960 10 1) ∧
    SelectBestMediaType (some ⟨0, some (rgb24 640 480 30 1),
      [rgb24 1280 960 10 1, rgb24 640 480 30 1]⟩) = .ok (rgb24 640 480 30 1) := by
  decide

/-- C3 (amended): for a reader whose reference format and native formats all
have a non-zero height and none of whose native formats has the frame rate
`0/0`, whose native list holds a higher-resolution candidate with a frame rate
of at least 15 fps and a lower-resolution candidate at 30 fps, both RGB24 and of
the reference aspect ratio, `SelectBestMediaType` returns a format whose
resolution is at least that of the higher-resolution candidate, and never the
lower-resolution 30 fps candidate. -/
theorem selectBestMediaType_resolution_dominates (reader : IMFSourceReader)
    (current high low : IMFMediaType)
    (hcur : reader.currentMediaType = some current)
    (hheight : (MFGetAttributeSize current).2 ≠ 0)
    (hnative : ∀ t ∈ reader.nativeMediaTypes, (MFGetAttributeSize t).2 ≠ 0)
    (hnan : ∀ t ∈ reader.nativeMediaTypes, typeFramerate t ≠ .nan)
    (hhigh : high ∈ reader.nativeMediaTypes) (hlow : low ∈ reader.nativeMediaTypes)
    (hhighElig : eligible current high)
    (hlowSubtype : GetGUID low = MFVideoFormat_RGB24)
    (hlowAspect : areSame (aspectRatio low) (aspectRatio current) = true)
    (hlowRate : typeFramerate low = .fin (30 * F32.SCALE))
    (hres : curResolutionMult low < curResolutionMult high) :
    eligible current low ∧
    ∃ best, SelectBestMediaType (some reader) = .ok best ∧
      curResolutionMult high ≤ curResolutionMult best ∧ best ≠ low := by
  have _ := hlow
  have hlowElig : eligible current low :=
    ⟨hlowSubtype, hlowAspect, by rw [hlowRate]; decide⟩
  obtain ⟨best, h1, -, -, h4, -⟩ :=
    selectBestMediaType_complete reader current hcur hheight hnative hnan ⟨high, hhigh, hhighElig⟩
  refine ⟨hlowElig, best, h1, h4 high hhigh hhighElig, ?_⟩
  intro hb
  have := h4 high hhigh hhighElig
  rw [hb] at this
  omega

/-- C3 (amended) at a reader offering 1280x960 at 15 fps and 640x480 at 30 fps. -/
theorem selectBestMediaType_resolution_dominates_witness :
    eligible (rgb24 640 480 30 1) (rgb24 640 480 30 1) ∧ ∃ best, SelectBestMediaType (some ⟨0, some (rgb24 640 480 30 1),
        [rgb24 1280 960 15 1, rgb24 640 480 30 1]⟩) = .ok best ∧
      curResolutionMult (rgb24 1280 960 15 1) ≤ curResolutionMult best ∧
      best ≠ rgb24 640 480 30 1 :=
  selectBestMediaType_resolution_dominates
    ⟨0, some (rgb24 640 480 30 1), [rgb24 1280 960 15 1, rgb24 640 480 30 1]⟩
    (rgb24 640 480 30 1) (rgb24 1280 960 15 1) (rgb24 640 480 30 1)
    rfl (by decide) (by decide) (by decide) (by decide) (by decide) (by decide)
    (by decide) (by decide) (by decide) (by decide)

/-! ### C4 -/

/-- C4 fails on the code: when nothing survives the filter (an empty native
list, or a list whose only RGB24 format of the reference aspect ratio runs at
10 fps) the code evaluates `supportedMediaTypes[0]` on an empty vector instead
of reporting that no format is acceptable. -/
theorem selectBestMediaType_reads_empty_vector :
    SelectBestMediaType (some ⟨0, some (rgb24 640 480 30 1), []⟩) =
      .error .vectorSubscriptOutOfRange ∧
    SelectBestMediaType (some ⟨0, some (rgb24 640 480 30 1), [rgb24 640 480 10 1]⟩) =
      .error .vectorSubscriptOutOfRange := by
  decide

end FormatSelector



section Stream

theorem runSteps_preserves (steps : List Step)
    (hsteps : ∀ step ∈ steps, ∀ s r, step s = .ok r → sameOutsideSession s r.2) :
    ∀ (hr : HRESULT) (s : SimpleMediaStream) (r : HRESULT × SimpleMediaStream),
      runSteps steps hr s = .ok r → sameOutsideSession s r.2 := by
  induction steps with
  | nil =>
    intro hr s r h
    simp only [runSteps, Except.ok.injEq] at h
    subst h
    simp [sameOutsideSession]
  | cons step rest ih =>
    intro hr s r h
    simp only [runSteps] at h
    cases hstep : step s with
    | error f => rw [hstep] at h; cases h
    | ok r1 =>
      rw [hstep] at h
      simp only at h
      have h1 := hsteps step (List.mem_cons_self _ _) s r1 hstep
      split_ifs at h
      · simp only [Except.ok.injEq] at h
        subst h
        exact h1
      · have h2 := ih (fun st hst => hsteps st (List.mem_cons_of_mem _ hst)) r1.1 r1.2 r h
        unfold sameOutsideSession at *
        simp only [h2, h1, and_self]

/-- The rebuild writes neither the overlay frame, nor the settings channel,
nor the selected camera name, nor the lifecycle flags. -/
theorem activateAndRebuild_preserves (P : Platform) (s : SimpleMediaStream) (a : IMFActivate)
    (r : HRESULT × SimpleMediaStream) (h : activateAndRebuild P s a = .ok r) :
    sameOutsideSession s r.2 := by
  refine runSteps_preserves _ ?_ _ s r h
  intro step hstep s0 r0 h0
  simp only [List.mem_cons, List.mem_singleton, List.not_mem_nil, or_false] at hstep
  rcases hstep with rfl | rfl | rfl | rfl | rfl | rfl | rfl | rfl | rfl | rfl
  all_goals
    first
    | (simp only [stepActivateObject, stepCreateReaderAttributes, stepSetStreamAttributes,
        stepCreateEventQueue, stepCreateStreamDescriptor, stepSetStreamDescriptorAttributes,
        Except.ok.injEq] at h0
       subst h0
       simp [sameOutsideSession])
    | (simp only [stepCreateReaderAndSelect, stepGetMediaTypeHandler,
        stepHandlerSetCurrentMediaType, stepReaderSetCurrentMediaType] at h0
       split at h0
       · cases h0
       · simp only [Except.ok.injEq] at h0
         subst h0
         simp only [sameOutsideSession]
         first
         | (split_ifs <;> simp)
         | simp)

/-- What a camera switch leaves of the stream outside the session members:
everything but the device list and, when a device was chosen, the camera name. -/
theorem updateSourceCamera_preserves (P : Platform) (s : SimpleMediaStream) (name : String)
    (r : HRESULT × SimpleMediaStream) (h : s.UpdateSourceCamera P name = .ok r) :
    r.2._overlayImage = s._overlayImage ∧ r.2._settingsUpdateChannel = s._settingsUpdateChannel ∧
      r.2._isShutdown = s._isShutdown ∧ r.2._isSelected = s._isSelected ∧
      r.2._parent = s._parent := by
  unfold SimpleMediaStream.UpdateSourceCamera at h
  simp only at h
  split_ifs at h
  · simp only [Except.ok.injEq] at h
    subst h
    simp
  · split at h
    · have := activateAndRebuild_preserves _ _ _ _ h
      simp only [sameOutsideSession] at this
      simp [this]
    · split at h
      · have := activateAndRebuild_preserves _ _ _ _ h
        simp only [sameOutsideSession] at this
        simp [this]
      · simp only [Except.ok.injEq] at h
        subst h
        simp

/-! ### C6 -/

/-- C6 as stated fails: on an active stream `SetStreamState(MF_STREAM_STATE_PAUSED)`
takes the `goto done` with `hr` still `S_OK`; the call reports success, not
`MF_E_INVALID_STATE_TRANSITION`. -/
theorem setStreamState_paused_returns_S_OK :
    demoStream._isShutdown = false ∧ demoStream._spEventQueue ≠ none ∧
    demoStream.SetStreamState demoPlatform MF_STREAM_STATE_PAUSED = .ok (S_OK, demoStream) ∧
    FAILED S_OK = false ∧ S_OK ≠ MF_E_INVALID_STATE_TRANSITION := by
  decide

/-- C6 (amended): for every active stream (not shut down, notification queue
present) `SetStreamState(MF_STREAM_STATE_PAUSED)` is ignored: it returns `S_OK`
and leaves the stream, the selection flag included, as it was. -/
theorem setStreamState_paused_ignored (P : Platform) (s : SimpleMediaStream)
    (hshutdown : s._isShutdown = false) (hqueue : s._spEventQueue ≠ none) :
    ∃ r, s.SetStreamState P MF_STREAM_STATE_PAUSED = .ok r ∧ r.1 = S_OK ∧
      r.2._isSelected = s._isSelected ∧ r.2 = s := by
  refine ⟨(S_OK, s), ?_, rfl, rfl, rfl⟩
  simp [SimpleMediaStream.SetStreamState, SimpleMediaStream._CheckShutdownRequiresLock,
    hshutdown, hqueue, FAILED, S_OK]

/-- C6 (amended) on the running test stream. -/
theorem setStreamState_paused_ignored_witness :
    ∃ r, demoStream.SetStreamState demoPlatform MF_STREAM_STATE_PAUSED = .ok r ∧ r.1 = S_OK ∧
      r.2._isSelected = true ∧ r.2 = demoStream :=
  setStreamState_paused_ignored demoPlatform demoStream (by decide) (by decide)

/-! ### C7 -/

/-- C7: on the stream left by `Shutdown()`, whatever the stream was before and
whatever the platform answers, `RequestSample` with any token, `SetStreamState`
with any state value and `GetStreamDescriptor` with a non-null output slot all
return the failure `MF_E_SHUTDOWN` and leave the stream as it is;
`RequestSample` and `SetStreamState` return at the shutdown check, before the
released reader, queue or owning source are touched (no fault, the same answer
on every platform), and the output slot is set to null. -/
theorem calls_after_shutdown_fail (P P1 : Platform) (s : SimpleMediaStream)
    (pToken : Option Nat) (state : MF_STREAM_STATE) (slot : Option IMFStreamDescriptor) :
    FAILED MF_E_SHUTDOWN = true ∧
    (s.Shutdown P).2.RequestSample P1 pToken = .ok (MF_E_SHUTDOWN, (s.Shutdown P).2) ∧
    (s.Shutdown P).2.SetStreamState P1 state = .ok (MF_E_SHUTDOWN, (s.Shutdown P).2) ∧
    (s.Shutdown P).2.GetStreamDescriptor (some slot) =
      (MF_E_SHUTDOWN, some none, (s.Shutdown P).2) := by
  have hcheck : (s.Shutdown P).2._CheckShutdownRequiresLock = MF_E_SHUTDOWN := by
    simp [SimpleMediaStream._CheckShutdownRequiresLock, SimpleMediaStream.Shutdown]
  have hfailed : FAILED MF_E_SHUTDOWN = true := by decide
  refine ⟨hfailed, ?_, ?_, ?_⟩
  · simp only [SimpleMediaStream.RequestSample, hcheck, hfailed, if_true]
  · simp only [SimpleMediaStream.SetStreamState, hcheck, hfailed, if_true]
  · simp only [SimpleMediaStream.GetStreamDescriptor, hcheck, hfailed, if_true]

/-! ### C8 -/

theorem find?_of_lowest_index {α : Type} (p : α → Bool) (l : List α) :
    ∀ (i : Nat) (d : α), l.get? i = some d → p d = true →
      (∀ j e, j < i → l.get? j = some e → p e = false) → l.find? p = some d := by
  induction l with
  | nil => intro i d h; simp at h
  | cons x xs ih =>
    intro i d hget hp hlow
    cases i with
    | zero =>
      simp only [List.get?_cons_zero, Option.some.injEq] at hget
      subst hget
      simp [List.find?, hp]
    | succ k =>
      have hx : p x = false := hlow 0 x (Nat.succ_pos k) rfl
      simp only [List.find?, hx]
      refine ih k d (by simpa using hget) hp ?_
      intro j e hj hje
      exact hlow (j + 1) e (Nat.succ_lt_succ hj) (by simpa using hje)

theorem isFallbackCamera_iff (current : Option String) (camName : String) :
    isFallbackCamera current camName = true ↔
      camName ≠ VIRTUAL_CAMERA_NAME ∧ current ≠ some camName := by
  cases current with
  | none => simp [isFallbackCamera]
  | some c =>
    simp only [isFallbackCamera, Option.isSome_some, Bool.true_and, Bool.not_true, Bool.or_false,
      Bool.and_eq_true, decide_eq_true_eq, ne_eq, Option.some.injEq]
    constructor
    · rintro ⟨h1, h2⟩
      exact ⟨h1, fun h => h2 h.symm⟩
    · rintro ⟨h1, h2⟩
      exact ⟨h1, fun h => h2 h.symm⟩

/-- C8: when enumeration succeeds with the device list `devices` and the
requested camera name is the name of none of them, `UpdateSourceCamera` goes on
with the lowest-index device whose name is neither "PowerToys VideoConference"
nor the currently active camera name (it activates that device and makes its
name the selected camera name); when there is no such device it returns
`E_ABORT` and the selected camera name, the reader, the media type, the
notification queue and the stream descriptor are those of before the call. -/
theorem updateSourceCamera_fallback (P : Platform) (s : SimpleMediaStream)
    (newCameraName : String) (hr : HRESULT) (devices : List Device)
    (henum : DeviceList.EnumerateDevices P s._cameraList.Clear = (hr, ⟨devices⟩))
    (hok : FAILED hr = false)
    (hunresolved : ∀ d ∈ devices, d.friendlyName ≠ newCameraName) :
    (∀ (i : Nat) (d : Device), devices.get? i = some d →
        d.friendlyName ≠ VIRTUAL_CAMERA_NAME →
        s._currentSourceCameraName ≠ some d.friendlyName →
        (∀ j e, j < i → devices.get? j = some e →
          e.friendlyName = VIRTUAL_CAMERA_NAME ∨ s._currentSourceCameraName = some e.friendlyName) →
        s.UpdateSourceCamera P newCameraName =
            activateAndRebuild P
              { s with _cameraList := ⟨devices⟩, _currentSourceCameraName := some d.friendlyName }
              d.activate ∧
          ∀ r, s.UpdateSourceCamera P newCameraName = .ok r →
            r.2._currentSourceCameraName = some d.friendlyName) ∧
    ((∀ d ∈ devices,
        d.friendlyName = VIRTUAL_CAMERA_NAME ∨ s._currentSourceCameraName = some d.friendlyName) →
      ∃ s1, s.UpdateSourceCamera P newCameraName = .ok (E_ABORT, s1) ∧
        s1._currentSourceCameraName = s._currentSourceCameraName ∧
        s1._sourceCamera = s._sourceCamera ∧ s1._spMediaType = s._spMediaType ∧
        s1._spEventQueue = s._spEventQueue ∧ s1._spStreamDesc = s._spStreamDesc) := by
  have hreq : findRequestedCamera ⟨devices⟩ newCameraName = none := by
    simp only [findRequestedCamera, List.find?_eq_none, decide_eq_true_eq]
    exact hunresolved
  constructor
  · intro i d hget hvirtual hcurrent hlow
    have hfb : findFallbackCamera ⟨devices⟩ s._currentSourceCameraName = some d := by
      refine find?_of_lowest_index _ devices i d hget
        ((isFallbackCamera_iff _ _).2 ⟨hvirtual, hcurrent⟩) ?_
      intro j e hj hje
      cases hb : isFallbackCamera s._currentSourceCameraName e.friendlyName with
      | false => rfl
      | true =>
        have := (isFallbackCamera_iff _ _).1 hb
        rcases hlow j e hj hje with h | h
        · exact absurd h this.1
        · exact absurd h this.2
    have heq : s.UpdateSourceCamera P newCameraName =
        activateAndRebuild P
          { s with _cameraList := ⟨devices⟩, _currentSourceCameraName := some d.friendlyName }
          d.activate := by
      simp only [SimpleMediaStream.UpdateSourceCamera, henum, hok, hreq, hfb]
      rfl
    refine ⟨heq, ?_⟩
    intro r hret
    rw [heq] at hret
    exact (activateAndRebuild_preserves _ _ _ _ hret).2.2.1
  · intro hnone
    have hfb : findFallbackCamera ⟨devices⟩ s._currentSourceCameraName = none := by
      simp only [findFallbackCamera, List.find?_eq_none]
      intro d hd hb
      have := (isFallbackCamera_iff _ _).1 hb
      rcases hnone d hd with h | h
      · exact this.1 h
      · exact this.2 h
    refine ⟨{ s with _cameraList := ⟨devices⟩ }, ?_, rfl, rfl, rfl, rfl, rfl⟩
    simp only [SimpleMediaStream.UpdateSourceCamera, henum, hok, hreq, hfb]
    rfl

/-- C8 on the test stream, active on "Integrated Webcam", asked for the unknown
camera "Front Camera": with the virtual camera, "Integrated Webcam" and
"USB Camera" enumerated the switch goes to "USB Camera" (index 2); with only
the first two enumerated it returns `E_ABORT` and keeps the session. -/
theorem updateSourceCamera_fallback_witness :
    (∀ r, demoStream.UpdateSourceCamera demoPlatform "Front Camera" = .ok r →
      r.2._currentSourceCameraName = some "USB Camera") ∧
    (∃ s1, demoStream.UpdateSourceCamera noOtherCamera "Front Camera" = .ok (E_ABORT, s1) ∧
      s1._currentSourceCameraName = demoStream._currentSourceCameraName ∧
      s1._sourceCamera = demoStream._sourceCamera ∧
      s1._spMediaType = demoStream._spMediaType ∧
      s1._spEventQueue = demoStream._spEventQueue ∧
      s1._spStreamDesc = demoStream._spStreamDesc) :=
  ⟨((updateSourceCamera_fallback demoPlatform demoStream "Front Camera" S_OK
      [⟨1, "PowerToys VideoConference"⟩, ⟨2, "Integrated Webcam"⟩, ⟨3, "USB Camera"⟩]
      rfl (by decide) (by decide)).1 2 ⟨3, "USB Camera"⟩ rfl (by decide) (by decide)
      (by
        intro j e hj hje
        interval_cases j
        · simp only [List.get?_cons_zero, Option.some.injEq] at hje
          subst hje
          exact Or.inl rfl
        · simp only [List.get?_cons_succ, List.get?_cons_zero, Option.some.injEq] at hje
          subst hje
          exact Or.inr rfl)).2,
   (updateSourceCamera_fallback noOtherCamera demoStream "Front Camera" S_OK
      [⟨1, "PowerToys VideoConference"⟩, ⟨2, "Integrated Webcam"⟩]
      rfl (by decide) (by decide)).2 (by decide)⟩

/-! ### C9 -/

/-- C9 as stated fails.  When activating the resolved device fails, the call
returns that failure with the selected camera name already replaced by the
name of the new device.  When `MFCreateStreamDescriptor` fails, the call
returns that failure with the reader, the media type and the notification
queue replaced and the stream descriptor null. -/
theorem updateSourceCamera_failure_mid_rebuild :
    demoStream._currentSourceCameraName = some "Integrated Webcam" ∧
    (demoStream.UpdateSourceCamera activationFails "USB Camera").map
        (fun r => (r.1, r.2._currentSourceCameraName)) = .ok (E_FAIL, some "USB Camera") ∧
    FAILED E_FAIL = true ∧
    (demoStream.UpdateSourceCamera descriptorFails "USB Camera").map
        (fun r => (r.1, r.2._sourceCamera.map (fun c => c.id), r.2._spMediaType)) =
      .ok (E_FAIL, some 3, some (rgb24 1280 960 30 1)) ∧
    (demoStream.UpdateSourceCamera descriptorFails "USB Camera").map
        (fun r => (r.2._spEventQueue, r.2._spStreamDesc)) = .ok (some ⟨7, []⟩, none) ∧
    demoStream._sourceCamera.map (fun c => c.id) = some 2 ∧
    demoStream._spMediaType = some (rgb24 640 480 30 1) ∧
    demoStream._spEventQueue = some ⟨5, []⟩ ∧
    demoStream._spStreamDesc ≠ none := by
  decide

theorem updateSourceCamera_of_resolved (P : Platform) (s : SimpleMediaStream)
    (newCameraName : String) (d : Device) (name : String)
    (hen : FAILED (DeviceList.EnumerateDevices P s._cameraList.Clear).1 = false)
    (hres : resolvedCamera (DeviceList.EnumerateDevices P s._cameraList.Clear).2
      s._currentSourceCameraName newCameraName = some (d, name)) :
    s.UpdateSourceCamera P newCameraName =
      activateAndRebuild P
        { s with
          _cameraList := (DeviceList.EnumerateDevices P s._cameraList.Clear).2
          _currentSourceCameraName := some name }
        d.activate := by
  unfold resolvedCamera at hres
  cases hreq : findRequestedCamera (DeviceList.EnumerateDevices P s._cameraList.Clear).2
      newCameraName with
  | some d1 =>
    rw [hreq] at hres
    simp only [Option.some.injEq, Prod.mk.injEq] at hres
    obtain ⟨rfl, rfl⟩ := hres
    simp only [SimpleMediaStream.UpdateSourceCamera, hen, hreq]
    rfl
  | none =>
    rw [hreq] at hres
    cases hfb : findFallbackCamera (DeviceList.EnumerateDevices P s._cameraList.Clear).2
        s._currentSourceCameraName with
    | some d1 =>
      rw [hfb] at hres
      simp only [Option.some.injEq, Prod.mk.injEq] at hres
      obtain ⟨rfl, rfl⟩ := hres
      simp only [SimpleMediaStream.UpdateSourceCamera, hen, hreq, hfb]
      rfl
    | none =>
      rw [hfb] at hres
      cases hres

theorem updateSourceCamera_of_unresolved (P : Platform) (s : SimpleMediaStream)
    (newCameraName : String)
    (hen : FAILED (DeviceList.EnumerateDevices P s._cameraList.Clear).1 = false)
    (hres : resolvedCamera (DeviceList.EnumerateDevices P s._cameraList.Clear).2
      s._currentSourceCameraName newCameraName = none) :
    s.UpdateSourceCamera P newCameraName =
      .ok (E_ABORT,
        { s with _cameraList := (DeviceList.EnumerateDevices P s._cameraList.Clear).2 }) := by
  unfold resolvedCamera at hres
  cases hreq : findRequestedCamera (DeviceList.EnumerateDevices P s._cameraList.Clear).2
      newCameraName with
  | some d1 => rw [hreq] at hres; cases hres
  | none =>
    rw [hreq] at hres
    cases hfb : findFallbackCamera (DeviceList.EnumerateDevices P s._cameraList.Clear).2
        s._currentSourceCameraName with
    | some d1 => rw [hfb] at hres; cases hres
    | none =>
      simp only [SimpleMediaStream.UpdateSourceCamera, hen, hreq, hfb]
      rfl

/-- A rebuild that fails at `ActivateObject` or at `MFCreateAttributes(&pAttributes, 2)`
returns that failure and the stream it was given. -/
theorem activateAndRebuild_early_failure (P : Platform) (s : SimpleMediaStream)
    (a : IMFActivate)
    (h : FAILED (P.ActivateObject a).1 = true ∨ FAILED P.MFCreateAttributes2 = true) :
    ∃ hr, activateAndRebuild P s a = .ok (hr, s) ∧ FAILED hr = true := by
  by_cases hact : FAILED (P.ActivateObject a).1 = true
  · exact ⟨(P.ActivateObject a).1,
      by simp only [activateAndRebuild, runSteps, stepActivateObject, hact, if_true], hact⟩
  · rcases h with h | h
    · exact absurd h hact
    · exact ⟨P.MFCreateAttributes2,
        by simp only [activateAndRebuild, runSteps, stepActivateObject, hact,
          stepCreateReaderAttributes, h, if_true, if_false, Bool.false_eq_true], h⟩

/-- C9 (amended): a camera switch that fails at enumeration, or at device
resolution because neither the requested name nor a fallback device is found,
returns a failure and leaves the selected camera name, the reader, the media
type, the notification queue and the stream descriptor as they were before the
call.  Once a device is resolved, every return of the call has the selected
camera name set to the name the device was resolved under (the requested name,
or the name of the fallback device); a switch that then fails at device
activation or at the creation of the reader attribute store returns a failure
and leaves the reader, the media type, the notification queue and the stream
descriptor as they were before the call. -/
theorem updateSourceCamera_failure_before_reader (P : Platform) (s : SimpleMediaStream)
    (newCameraName : String) :
    ((FAILED (DeviceList.EnumerateDevices P s._cameraList.Clear).1 = true ∨
        resolvedCamera (DeviceList.EnumerateDevices P s._cameraList.Clear).2
          s._currentSourceCameraName newCameraName = none) →
      ∃ r, s.UpdateSourceCamera P newCameraName = .ok r ∧ FAILED r.1 = true ∧
        r.2._currentSourceCameraName = s._currentSourceCameraName ∧
        r.2._sourceCamera = s._sourceCamera ∧ r.2._spMediaType = s._spMediaType ∧
        r.2._spEventQueue = s._spEventQueue ∧ r.2._spStreamDesc = s._spStreamDesc) ∧
    (∀ (d : Device) (name : String),
      FAILED (DeviceList.EnumerateDevices P s._cameraList.Clear).1 = false →
      resolvedCamera (DeviceList.EnumerateDevices P s._cameraList.Clear).2
        s._currentSourceCameraName newCameraName = some (d, name) →
      (∀ r, s.UpdateSourceCamera P newCameraName = .ok r →
        r.2._currentSourceCameraName = some name) ∧
      ((FAILED (P.ActivateObject d.activate).1 = true ∨ FAILED P.MFCreateAttributes2 = true) →
        ∃ r, s.UpdateSourceCamera P newCameraName = .ok r ∧ FAILED r.1 = true ∧
          r.2._currentSourceCameraName = some name ∧
          r.2._sourceCamera = s._sourceCamera ∧ r.2._spMediaType = s._spMediaType ∧
          r.2._spEventQueue = s._spEventQueue ∧ r.2._spStreamDesc = s._spStreamDesc)) := by
  constructor
  · intro hstep
    by_cases hen : FAILED (DeviceList.EnumerateDevices P s._cameraList.Clear).1 = true
    · refine ⟨((DeviceList.EnumerateDevices P s._cameraList.Clear).1,
        { s with _cameraList := (DeviceList.EnumerateDevices P s._cameraList.Clear).2 }),
        ?_, hen, rfl, rfl, rfl, rfl, rfl⟩
      simp only [SimpleMediaStream.UpdateSourceCamera, hen, if_true]
    · rcases hstep with h | h
      · exact absurd h hen
      · refine ⟨(E_ABORT,
          { s with _cameraList := (DeviceList.EnumerateDevices P s._cameraList.Clear).2 }),
          updateSourceCamera_of_unresolved P s newCameraName (by simpa using hen) h,
          (by show FAILED E_ABORT = true; decide), rfl, rfl, rfl, rfl, rfl⟩
  · intro d name hen hres
    have heq := updateSourceCamera_of_resolved P s newCameraName d name hen hres
    constructor
    · intro r hret
      rw [heq] at hret
      exact (activateAndRebuild_preserves _ _ _ _ hret).2.2.1
    · intro hfail
      obtain ⟨hr, h1, h2⟩ := activateAndRebuild_early_failure P
        { s with
          _cameraList := (DeviceList.EnumerateDevices P s._cameraList.Clear).2
          _currentSourceCameraName := some name }
        d.activate hfail
      exact ⟨_, heq.trans h1, h2, rfl, rfl, rfl, rfl, rfl⟩

/-- C9 (amended) on the test stream: an unknown camera requested with no other
camera enumerated keeps the whole session; "USB Camera" requested with the
activation failing, or with the reader attribute store not created, keeps
reader, media type, queue and descriptor and leaves "USB Camera" as the
selected camera name. -/
theorem updateSourceCamera_failure_before_reader_witness :
    (∃ r, demoStream.UpdateSourceCamera noOtherCamera "Front Camera" = .ok r ∧
      FAILED r.1 = true ∧
      r.2._currentSourceCameraName = demoStream._currentSourceCameraName ∧
      r.2._sourceCamera = demoStream._sourceCamera ∧
      r.2._spMediaType = demoStream._spMediaType ∧
      r.2._spEventQueue = demoStream._spEventQueue ∧
      r.2._spStreamDesc = demoStream._spStreamDesc) ∧
    (∃ r, demoStream.UpdateSourceCamera activationFails "USB Camera" = .ok r ∧
      FAILED r.1 = true ∧
      r.2._currentSourceCameraName = some "USB Camera" ∧
      r.2._sourceCamera = demoStream._sourceCamera ∧
      r.2._spMediaType = demoStream._spMediaType ∧
      r.2._spEventQueue = demoStream._spEventQueue ∧
      r.2._spStreamDesc = demoStream._spStreamDesc) ∧
    (∃ r, demoStream.UpdateSourceCamera readerAttributesFail "USB Camera" = .ok r ∧
      FAILED r.1 = true ∧
      r.2._currentSourceCameraName = some "USB Camera" ∧
      r.2._sourceCamera = demoStream._sourceCamera ∧
      r.2._spMediaType = demoStream._spMediaType ∧
      r.2._spEventQueue = demoStream._spEventQueue ∧
      r.2._spStreamDesc = demoStream._spStreamDesc) :=
  ⟨(updateSourceCamera_failure_before_reader noOtherCamera demoStream "Front Camera").1
      (Or.inr (by decide)),
   ((updateSourceCamera_failure_before_reader activationFails demoStream "USB Camera").2
      ⟨3, "USB Camera"⟩ "USB Camera" (by decide) (by decide)).2 (Or.inl (by decide)),
   ((updateSourceCamera_failure_before_reader readerAttributesFail demoStream "USB Camera").2
      ⟨3, "USB Camera"⟩ "USB Camera" (by decide) (by decide)).2 (Or.inr (by decide))⟩

/-! ### C10 -/

theorem syncCamera_preserves (P : Platform) (s : SimpleMediaStream)
    (settings : CameraSettingsUpdateChannel) (rc : Bool × SimpleMediaStream)
    (h : syncCamera P s settings = .ok rc) :
    rc.2._overlayImage = s._overlayImage ∧
      rc.2._settingsUpdateChannel = s._settingsUpdateChannel := by
  unfold syncCamera at h
  split at h
  · simp only [Except.ok.injEq] at h
    subst h
    exact ⟨rfl, rfl⟩
  · split at h
    · cases h
    · rename_i r hr
      simp only [Except.ok.injEq] at h
      subst h
      have := updateSourceCamera_preserves P s _ r hr
      exact ⟨this.1, this.2.1⟩

/-- The overlay part of a refresh either decodes the announced image, stores it
and clears the flag, or leaves the stream untouched. -/
theorem syncOverlayImage_cases (P : Platform) (s : SimpleMediaStream)
    (settings : CameraSettingsUpdateChannel) (cameraUpdated : Bool) :
    (∃ size bytes img, settings.overlayImageSize = some size ∧
        (settings.newOverlayImagePosted = true ∨ s._overlayImage = none ∨ cameraUpdated = true) ∧
        P.openImageChannel size = some bytes ∧ P.SHCreateMemStream bytes = true ∧
        P.LoadImageAsSample bytes s._spMediaType = some img ∧
        syncOverlayImage P s settings cameraUpdated =
          { s with
            _overlayImage := some img
            _settingsUpdateChannel := some { settings with newOverlayImagePosted := false } }) ∨
      syncOverlayImage P s settings cameraUpdated = s := by
  unfold syncOverlayImage
  cases hsize : settings.overlayImageSize with
  | none => exact Or.inr rfl
  | some size =>
    simp only
    by_cases hcond :
        (settings.newOverlayImagePosted || s._overlayImage.isNone || cameraUpdated) = true
    · rw [if_pos hcond]
      cases hopen : P.openImageChannel size with
      | none => exact Or.inr rfl
      | some bytes =>
        simp only
        by_cases hstream : P.SHCreateMemStream bytes = false
        · rw [if_pos hstream]
          exact Or.inr rfl
        · rw [if_neg hstream]
          cases hload : P.LoadImageAsSample bytes s._spMediaType with
          | none => exact Or.inr rfl
          | some img =>
            refine Or.inl ⟨size, bytes, img, rfl, ?_, hopen, by simpa using hstream, hload, rfl⟩
            simpa [Bool.or_eq_true, or_assoc] using hcond
    · rw [if_neg hcond]
      exact Or.inr rfl

theorem syncCurrentSettings_eq (P : Platform) (s : SimpleMediaStream)
    (settings : CameraSettingsUpdateChannel) (hsnap : settingsSnapshot P s = some settings) :
    s.SyncCurrentSettings P =
      match syncCamera P { s with _settingsUpdateChannel := some settings } settings with
      | .error f => .error f
      | .ok rc => .ok (settings.useOverlayImage, syncOverlayImage P rc.2 settings rc.1) := by
  unfold settingsSnapshot at hsnap
  unfold SimpleMediaStream.SyncCurrentSettings
  cases hch : s._settingsUpdateChannel with
  | none =>
    simp only [hch, Option.isSome_none, if_true] at hsnap
    simp only [Option.isSome_none, if_true, hsnap]
  | some c =>
    simp only [hch, Option.isSome_some, Bool.true_eq_false, if_false, Option.some.injEq] at hsnap
    subst hsnap
    have hs : { s with _settingsUpdateChannel := some c } = s := by
      cases s
      simp only at hch
      subst hch
      rfl
    simp only [Option.isSome_some, Bool.true_eq_false, if_false, hch, hs]

/-- C10: in a refresh that reads the settings record `settings` and returns,
either the overlay image was decoded successfully in this refresh (a size is
announced, the image channel opened, the byte stream was created, the loader
returned an image), that image is now the cached overlay frame and the "new
overlay image posted" flag is cleared; or the settings record, its flag
included, and the cached overlay frame are what they were before.  The second
case is the one of every other outcome: no overlay size announced, no load
attempted (flag not set, a frame cached, no camera switch done), image channel
not opened, byte stream not created, decode failed. -/
theorem syncCurrentSettings_flag_cleared_only_on_decode (P : Platform) (s : SimpleMediaStream)
    (settings : CameraSettingsUpdateChannel) (r : Bool × SimpleMediaStream)
    (hsnap : settingsSnapshot P s = some settings)
    (hret : s.SyncCurrentSettings P = .ok r) :
    ((∃ size bytes img, settings.overlayImageSize = some size ∧
          P.openImageChannel size = some bytes ∧ P.SHCreateMemStream bytes = true ∧
          P.LoadImageAsSample bytes r.2._spMediaType = some img ∧
          r.2._overlayImage = some img ∧
          r.2._settingsUpdateChannel = some { settings with newOverlayImagePosted := false }) ∨
        (r.2._settingsUpdateChannel = some settings ∧ r.2._overlayImage = s._overlayImage)) ∧
    (settings.overlayImageSize = none →
      r.2._settingsUpdateChannel = some settings ∧ r.2._overlayImage = s._overlayImage) ∧
    (∀ rc, syncCamera P { s with _settingsUpdateChannel := some settings } settings = .ok rc →
      settings.newOverlayImagePosted = false → s._overlayImage ≠ none → rc.1 = false →
      r.2._settingsUpdateChannel = some settings ∧ r.2._overlayImage = s._overlayImage) ∧
    (∀ size, settings.overlayImageSize = some size → P.openImageChannel size = none →
      r.2._settingsUpdateChannel = some settings ∧ r.2._overlayImage = s._overlayImage) ∧
    (∀ size bytes, settings.overlayImageSize = some size →
      P.openImageChannel size = some bytes → P.SHCreateMemStream bytes = false →
      r.2._settingsUpdateChannel = some settings ∧ r.2._overlayImage = s._overlayImage) ∧
    (∀ size bytes, settings.overlayImageSize = some size →
      P.openImageChannel size = some bytes →
      P.LoadImageAsSample bytes r.2._spMediaType = none →
      r.2._settingsUpdateChannel = some settings ∧ r.2._overlayImage = s._overlayImage) := by
  rw [syncCurrentSettings_eq P s settings hsnap] at hret
  cases hcam : syncCamera P { s with _settingsUpdateChannel := some settings } settings with
  | error f => rw [hcam] at hret; cases hret
  | ok rc =>
    rw [hcam] at hret
    simp only [Except.ok.injEq] at hret
    obtain ⟨hov, hch⟩ := syncCamera_preserves P _ settings rc hcam
    simp only at hov hch
    rcases syncOverlayImage_cases P rc.2 settings rc.1 with
      ⟨size, bytes, img, h1, h2, h3, h4, h5, h6⟩ | hsame
    · rw [h6] at hret
      subst hret
      refine ⟨Or.inl ⟨size, bytes, img, h1, h3, h4, h5, rfl, rfl⟩, ?_, ?_, ?_, ?_, ?_⟩
      · intro hnone
        rw [hnone] at h1
        cases h1
      · intro rc1 hrc1 hflag hcached hnot
        simp only [Except.ok.injEq] at hrc1
        subst hrc1
        rcases h2 with h2 | h2 | h2
        · rw [hflag] at h2
          cases h2
        · rw [hov] at h2
          exact absurd h2 hcached
        · rw [hnot] at h2
          cases h2
      · intro size1 hs1 hopen
        rw [h1] at hs1
        simp only [Option.some.injEq] at hs1
        subst hs1
        rw [hopen] at h3
        cases h3
      · intro size1 bytes1 hs1 hopen hstream
        rw [h1] at hs1
        simp only [Option.some.injEq] at hs1
        subst hs1
        rw [h3] at hopen
        simp only [Option.some.injEq] at hopen
        subst hopen
        rw [hstream] at h4
        cases h4
      · intro size1 bytes1 hs1 hopen hload
        rw [h1] at hs1
        simp only [Option.some.injEq] at hs1
        subst hs1
        rw [h3] at hopen
        simp only [Option.some.injEq] at hopen
        subst hopen
        simp only at hload
        rw [h5] at hload
        cases hload
    · rw [hsame] at hret
      subst hret
      have hboth : rc.2._settingsUpdateChannel = some settings ∧
          rc.2._overlayImage = s._overlayImage := ⟨hch, hov⟩
      exact ⟨Or.inr hboth, fun _ => hboth, fun _ _ _ _ _ => hboth, fun _ _ _ => hboth,
        fun _ _ _ _ _ => hboth, fun _ _ _ _ _ => hboth⟩

/-- C10 on the test stream with a newly posted overlay image: the refresh
decodes it and caches it (the flag of the returned stream is cleared). -/
theorem syncCurrentSettings_flag_cleared_only_on_decode_witness :
    ∃ size bytes img, demoPlatform.openImageChannel size = some bytes ∧
      demoPlatform.LoadImageAsSample bytes (some (rgb24 640 480 30 1)) = some img ∧
      (⟨51, none, none, none⟩ : IMFSample) = img :=
  have h := (syncCurrentSettings_flag_cleared_only_on_decode demoPlatform overlayPosted
    ⟨true, some "Integrated Webcam", some 2, true⟩
    (true, { overlayPosted with
      _overlayImage := some ⟨51, none, none, none⟩
      _settingsUpdateChannel := some ⟨true, some "Integrated Webcam", some 2, false⟩ })
    (by decide) (by decide)).1
  h.elim (fun ⟨size, bytes, img, _, h2, _, h4, h5, _⟩ =>
      ⟨size, bytes, img, h2, h4, Option.some.inj h5⟩)
    (fun ⟨h1, _⟩ => by simp at h1)

/-! ### C5 -/

theorem stampSample_id (P : Platform) (o : IMFSample) (pToken : Option Nat) :
    (stampSample P o pToken).2.id = o.id := by
  cases pToken <;> simp only [stampSample] <;> split_ifs <;> rfl

/-- A refresh never empties the overlay cache. -/
theorem syncCurrentSettings_keeps_overlay (P : Platform) (s : SimpleMediaStream)
    (r : Bool × SimpleMediaStream) (hret : s.SyncCurrentSettings P = .ok r)
    (hcached : s._overlayImage ≠ none) : r.2._overlayImage ≠ none := by
  cases hsnap : settingsSnapshot P s with
  | none =>
    unfold settingsSnapshot at hsnap
    unfold SimpleMediaStream.SyncCurrentSettings at hret
    cases hch : s._settingsUpdateChannel with
    | none =>
      simp only [hch, Option.isSome_none, if_true] at hsnap
      simp only [hch, Option.isSome_none, if_true, hsnap, Except.ok.injEq] at hret
      subst hret
      exact hcached
    | some c =>
      simp [hch] at hsnap
  | some settings =>
    rw [syncCurrentSettings_eq P s settings hsnap] at hret
    cases hcam : syncCamera P { s with _settingsUpdateChannel := some settings } settings with
    | error f => rw [hcam] at hret; cases hret
    | ok rc =>
      rw [hcam] at hret
      simp only [Except.ok.injEq] at hret
      obtain ⟨hov, -⟩ := syncCamera_preserves P _ settings rc hcam
      simp only at hov
      rcases syncOverlayImage_cases P rc.2 settings rc.1 with
        ⟨_, _, img, _, _, _, _, _, h6⟩ | hsame
      · rw [h6] at hret
        subst hret
        simp
      · rw [hsame] at hret
        subst hret
        simp only [hov]
        exact hcached

/-- C5 as stated fails: on the test stream (active, overlay frame cached, the
refresh reports the overlay enabled, the read succeeds without a frame) one
request enqueues a single notification, the sample notification with the
cached overlay frame, and no stream tick.  The tick comes only with the
placeholder sample, as on the same stream without a cached overlay frame. -/
theorem requestSample_overlay_no_tick :
    demoStream._isShutdown = false ∧
    demoStream._overlayImage = some ⟨50, none, none, none⟩ ∧
    demoStream._spEventQueue = some ⟨5, []⟩ ∧
    demoStream.SyncCurrentSettings demoPlatform = .ok (true, demoStream) ∧
    demoStream._sourceCamera.map demoPlatform.ReadSample = some (S_OK, none) ∧
    (demoStream.RequestSample demoPlatform none).map (fun r => (r.1, r.2._spEventQueue)) =
      .ok (S_OK, some ⟨5, [⟨.MEMediaSample, GUID_NULL, S_OK,
        some ⟨50, some 1000, some 333333, none⟩⟩]⟩) ∧
    (({ demoStream with _overlayImage := none } : SimpleMediaStream).RequestSample
        demoPlatform none).map (fun r => (r.1, r.2._spEventQueue)) =
      .ok (S_OK, some ⟨5, [⟨.MEStreamTick, GUID_NULL, S_OK, none⟩,
        ⟨.MEMediaSample, GUID_NULL, S_OK, some ⟨100, some 1000, some 333333, none⟩⟩]⟩) := by
  decide

/-- C5 (amended): for every active stream (not shut down, notification queue
present) with a cached overlay frame, when the settings refresh reports the
overlay enabled and leaves a notification queue, the read of the live device
succeeds without a frame, and stamping the sample and queueing the event
succeed, `RequestSample` returns `S_OK` and enqueues exactly one notification on
that queue: a sample notification that carries the cached overlay frame,
stamped with time, duration and token.  No stream tick is enqueued. -/
theorem requestSample_overlay_enqueues_sample_only (P : Platform) (s s1 : SimpleMediaStream)
    (pToken : Option Nat) (reader : IMFSourceReader)
    (hshutdown : s._isShutdown = false) (hqueue : s._spEventQueue ≠ none)
    (hcached : s._overlayImage ≠ none)
    (hsync : s.SyncCurrentSettings P = .ok (true, s1))
    (hqueue1 : s1._spEventQueue ≠ none)
    (hcamera : s1._sourceCamera = some reader)
    (hread : FAILED (P.ReadSample reader).1 = false)
    (hnoframe : (P.ReadSample reader).2 = none)
    (hstamp : ∀ o, FAILED (stampSample P o pToken).1 = false)
    (hqueued : ∀ q e, FAILED (P.QueueEventParamUnk q e) = false) :
    ∃ overlay queue, s1._overlayImage = some overlay ∧ s1._spEventQueue = some queue ∧
      (stampSample P overlay pToken).2.id = overlay.id ∧
      s.RequestSample P pToken = .ok (S_OK, { s1 with
        _overlayImage := some (stampSample P overlay pToken).2
        _spEventQueue := some { queue with events := queue.events ++
          [⟨.MEMediaSample, GUID_NULL, S_OK, some (stampSample P overlay pToken).2⟩] } }) := by
  have _ := hnoframe
  have hcheck : FAILED s._CheckShutdownRequiresLock = false := by
    simp [SimpleMediaStream._CheckShutdownRequiresLock, hshutdown, hqueue, FAILED, S_OK]
  have hov := syncCurrentSettings_keeps_overlay P s _ hsync hcached
  simp only at hov
  obtain ⟨overlay, hoverlay⟩ := Option.ne_none_iff_exists'.1 hov
  obtain ⟨queue, hq⟩ := Option.ne_none_iff_exists'.1 hqueue1
  have hok : FAILED S_OK = false := by decide
  refine ⟨overlay, queue, hoverlay, hq, stampSample_id P overlay pToken, ?_⟩
  unfold SimpleMediaStream.RequestSample
  simp only [hcheck, hsync, hcamera, hread, hoverlay, if_true, Bool.false_eq_true, if_false]
  unfold stampAndQueue
  simp only [hstamp overlay, Bool.false_eq_true, if_false]
  unfold queueSample
  simp only [storeOutputSample, if_true, hq, hok, hqueued, Bool.false_eq_true, if_false]
  rw [hcamera]

/-- C5 (amended) on the test stream. -/
theorem requestSample_overlay_enqueues_sample_only_witness :
    ∃ overlay queue, demoStream._overlayImage = some overlay ∧
      demoStream._spEventQueue = some queue ∧
      (stampSample demoPlatform overlay none).2.id = overlay.id ∧
      demoStream.RequestSample demoPlatform none = .ok (S_OK, { demoStream with
        _overlayImage := some (stampSample demoPlatform overlay none).2
        _spEventQueue := some { queue with events := queue.events ++
          [⟨.MEMediaSample, GUID_NULL, S_OK, some (stampSample demoPlatform overlay none).2⟩] } }) :=
  requestSample_overlay_enqueues_sample_only demoPlatform demoStream demoStream none
    ⟨2, some (rgb24 640 480 30 1), [rgb24 640 480 30 1]⟩
    (by decide) (by decide) (by decide) (by decide) (by decide) (by decide) (by decide)
    (by decide) (fun _ => rfl) (fun _ _ => rfl)

/-! ### C11 -/

theorem withSettingsChannel_eq (s : SimpleMediaStream) (settings : CameraSettingsUpdateChannel)
    (h : s._settingsUpdateChannel = some settings) :
    { s with _settingsUpdateChannel := some settings } = s := by
  cases s
  simp only at h
  subst h
  rfl

/-- A refresh without a camera switch that has just left the overlay part
behind leaves it behind again. -/
theorem syncOverlayImage_settled (P : Platform) (s : SimpleMediaStream)
    (settings : CameraSettingsUpdateChannel) (cameraUpdated : Bool)
    (hch : s._settingsUpdateChannel = some settings) :
    ∃ settings1, (syncOverlayImage P s settings cameraUpdated)._settingsUpdateChannel
        = some settings1 ∧
      settings1.sourceCameraName = settings.sourceCameraName ∧
      settings1.useOverlayImage = settings.useOverlayImage ∧
      (syncOverlayImage P s settings cameraUpdated)._currentSourceCameraName
        = s._currentSourceCameraName ∧
      syncOverlayImage P (syncOverlayImage P s settings cameraUpdated) settings1 false
        = syncOverlayImage P s settings cameraUpdated := by
  rcases syncOverlayImage_cases P s settings cameraUpdated with
    ⟨size, bytes, img, h1, -, -, -, -, h6⟩ | hsame
  · rw [h6]
    refine ⟨{ settings with newOverlayImagePosted := false }, rfl, rfl, rfl, rfl, ?_⟩
    simp [syncOverlayImage, h1]
  · rw [hsame]
    refine ⟨settings, hch, rfl, rfl, rfl, ?_⟩
    unfold syncOverlayImage at hsame ⊢
    cases hsize : settings.overlayImageSize with
    | none => rfl
    | some size =>
      rw [hsize] at hsame
      simp only at hsame ⊢
      by_cases hcond : (settings.newOverlayImagePosted || s._overlayImage.isNone || false) = true
      · have hcond1 :
            (settings.newOverlayImagePosted || s._overlayImage.isNone || cameraUpdated) = true := by
          simp only [Bool.or_false] at hcond
          simp only [hcond, Bool.true_or]
        rw [if_pos hcond1] at hsame
        rw [if_pos hcond]
        exact hsame
      · rw [if_neg hcond]

/-- After a camera switch for the name `n` that found a device of that name, the
selected camera name is `n`. -/
theorem updateSourceCamera_resolved_name (P : Platform) (s : SimpleMediaStream) (n : String)
    (r : HRESULT × SimpleMediaStream)
    (hen : FAILED (DeviceList.EnumerateDevices P s._cameraList.Clear).1 = false)
    (hfound : (findRequestedCamera (DeviceList.EnumerateDevices P s._cameraList.Clear).2 n).isSome
      = true)
    (hret : s.UpdateSourceCamera P n = .ok r) : r.2._currentSourceCameraName = some n := by
  obtain ⟨d, hd⟩ := Option.isSome_iff_exists.1 hfound
  simp only [SimpleMediaStream.UpdateSourceCamera, hen, hd] at hret
  exact (activateAndRebuild_preserves _ _ _ _ hret).2.2.1

theorem updatedCameraName_settled (settings : CameraSettingsUpdateChannel) (n : String)
    (current : Option String) (h : updatedCameraName settings current = some n) :
    updatedCameraName settings (some n) = none := by
  unfold updatedCameraName at h ⊢
  cases hname : settings.sourceCameraName with
  | none => rfl
  | some m =>
    rw [hname] at h
    simp only at h ⊢
    split_ifs at h
    simp only [Option.some.injEq] at h
    subst h
    simp

/-- A refresh that reads `settings` and returns is the camera part followed by
the overlay part, and the camera part keeps the settings record. -/
theorem syncCurrentSettings_parts (P : Platform) (s : SimpleMediaStream)
    (settings : CameraSettingsUpdateChannel) (r : Bool × SimpleMediaStream)
    (hsnap : settingsSnapshot P s = some settings)
    (hret : s.SyncCurrentSettings P = .ok r) :
    ∃ rc, syncCamera P { s with _settingsUpdateChannel := some settings } settings = .ok rc ∧
      rc.2._settingsUpdateChannel = some settings ∧
      r = (settings.useOverlayImage, syncOverlayImage P rc.2 settings rc.1) := by
  rw [syncCurrentSettings_eq P s settings hsnap] at hret
  cases hcam : syncCamera P { s with _settingsUpdateChannel := some settings } settings with
  | error f => rw [hcam] at hret; cases hret
  | ok rc =>
    rw [hcam] at hret
    simp only [Except.ok.injEq] at hret
    exact ⟨rc, rfl, (syncCamera_preserves P _ settings rc hcam).2, hret.symm⟩

/-- C11 as stated fails: with every collaborator succeeding and the same three
devices enumerated, a settings record that names a camera no device has makes
the first refresh fall back to "USB Camera" and the second refresh, which still
sees a requested name other than the selected one, switch again, to
"Integrated Webcam". -/
theorem syncCurrentSettings_unresolvable_name_switches_again :
    wantsFrontCamera.SyncCurrentSettings demoPlatform =
      .ok (true, onUsbCamera ⟨true, some "Front Camera", none, false⟩) ∧
    updatedCameraName ⟨true, some "Front Camera", none, false⟩ (some "USB Camera") =
      some "Front Camera" ∧
    ((onUsbCamera ⟨true, some "Front Camera", none, false⟩).SyncCurrentSettings demoPlatform).map
        (fun r => (r.2._currentSourceCameraName, r.2._sourceCamera.map (fun c => c.id))) =
      .ok (some "Integrated Webcam", some 2) ∧
    (onUsbCamera ⟨true, some "Front Camera", none, false⟩)._sourceCamera.map (fun c => c.id) =
      some 3 := by
  decide

/-- C11 (amended): when the settings name no camera, or the active one, or a
camera that enumeration lists, running `SyncCurrentSettings` a second time on
the stream and settings record the first run left returns the same result and
the same stream (selected camera name, session, overlay frame and settings
record), and the second run does no camera switch (`UpdateSourceCamera` is not
called). -/
theorem syncCurrentSettings_twice_same (P : Platform) (s : SimpleMediaStream)
    (r1 : Bool × SimpleMediaStream)
    (hret : s.SyncCurrentSettings P = .ok r1)
    (hresolvable : desiredCameraResolvable P s = true) :
    r1.2.SyncCurrentSettings P = .ok r1 ∧
      ∀ settings1, r1.2._settingsUpdateChannel = some settings1 →
        updatedCameraName settings1 r1.2._currentSourceCameraName = none ∧
        syncCamera P r1.2 settings1 = .ok (false, r1.2) := by
  cases hsnap : settingsSnapshot P s with
  | none =>
    unfold settingsSnapshot at hsnap
    cases hch : s._settingsUpdateChannel with
    | some c => simp [hch] at hsnap
    | none =>
      simp only [hch, Option.isSome_none, if_true] at hsnap
      simp only [SimpleMediaStream.SyncCurrentSettings, hch, Option.isSome_none, if_true, hsnap,
        Except.ok.injEq] at hret
      subst hret
      constructor
      · simp only [SimpleMediaStream.SyncCurrentSettings, Option.isSome_none, if_true, hsnap]
      · intro settings1 h
        cases h
  | some settings =>
    obtain ⟨rc, hcam, hchan, hr⟩ := syncCurrentSettings_parts P s settings r1 hsnap hret
    subst hr
    -- the camera part leaves a camera name the settings do not ask to change
    have hname : updatedCameraName settings rc.2._currentSourceCameraName = none := by
      unfold syncCamera at hcam
      simp only at hcam
      cases hupd : updatedCameraName settings s._currentSourceCameraName with
      | none =>
        rw [hupd] at hcam
        simp only [Except.ok.injEq] at hcam
        subst hcam
        exact hupd
      | some n =>
        rw [hupd] at hcam
        simp only at hcam
        simp only [desiredCameraResolvable, hsnap, hupd, Bool.and_eq_true, Bool.not_eq_true']
          at hresolvable
        cases hupdate : SimpleMediaStream.UpdateSourceCamera P
            { s with _settingsUpdateChannel := some settings } n with
        | error f => rw [hupdate] at hcam; cases hcam
        | ok r =>
          rw [hupdate] at hcam
          simp only [Except.ok.injEq] at hcam
          subst hcam
          have := updateSourceCamera_resolved_name P
            { s with _settingsUpdateChannel := some settings } n r hresolvable.1 hresolvable.2
            hupdate
          simp only [this]
          exact updatedCameraName_settled settings n _ hupd
    obtain ⟨settings1, h1, h2, h3, h4, h5⟩ :=
      syncOverlayImage_settled P rc.2 settings rc.1 hchan
    have hname1 : updatedCameraName settings1
        (syncOverlayImage P rc.2 settings rc.1)._currentSourceCameraName = none := by
      rw [h4]
      unfold updatedCameraName at hname ⊢
      rw [h2]
      exact hname
    have hcam1 : syncCamera P (syncOverlayImage P rc.2 settings rc.1) settings1 =
        .ok (false, syncOverlayImage P rc.2 settings rc.1) := by
      simp only [syncCamera, hname1]
    have hsnap1 : settingsSnapshot P (syncOverlayImage P rc.2 settings rc.1) = some settings1 := by
      simp only [settingsSnapshot, h1, Option.isSome_some, Bool.true_eq_false, if_false]
    constructor
    · rw [syncCurrentSettings_eq P _ settings1 hsnap1, withSettingsChannel_eq _ settings1 h1,
        hcam1]
      simp only [h3, h5]
    · intro settings2 hs2
      simp only at hs2
      rw [h1] at hs2
      simp only [Option.some.injEq] at hs2
      subst hs2
      exact ⟨hname1, hcam1⟩

/-- C11 (amended) on the test stream asked for "USB Camera" while
"Integrated Webcam" is active: the first refresh switches, the second one
returns the same stream. -/
theorem syncCurrentSettings_twice_same_witness :
    wantsUsbCamera.SyncCurrentSettings demoPlatform =
      .ok (true, onUsbCamera ⟨true, some "USB Camera", none, false⟩) ∧
    (onUsbCamera ⟨true, some "USB Camera", none, false⟩).SyncCurrentSettings demoPlatform =
      .ok (true, onUsbCamera ⟨true, some "USB Camera", none, false⟩) :=
  ⟨by decide, (syncCurrentSettings_twice_same demoPlatform wantsUsbCamera
    (true, onUsbCamera ⟨true, some "USB Camera", none, false⟩) (by decide) (by decide)).1⟩

/-! ### C12 -/

/-- C12 as stated fails on a stream that is not shut down but has lost its
notification queue: the running test stream, after a refresh whose camera
switch failed at `MFCreateEventQueue`, is not shut down and still selected, and
`SetStreamState` with the unknown state value 7 returns `E_UNEXPECTED` at the
entry check and leaves the selection flag set. -/
theorem setStreamState_unknown_without_queue :
    wantsUsbCamera._isShutdown = false ∧ wantsUsbCamera._isSelected = true ∧
    wantsUsbCamera._spEventQueue ≠ none ∧
    (wantsUsbCamera.SyncCurrentSettings queueCreationFails).map
        (fun r => (r.2._isShutdown, r.2._isSelected, r.2._spEventQueue)) =
      .ok (false, true, none) ∧
    (wantsUsbCamera.SyncCurrentSettings queueCreationFails >>= fun r =>
        (r.2.SetStreamState demoPlatform 7).map (fun q => (q.1, q.2._isSelected))) =
      .ok (E_UNEXPECTED, true) ∧
    E_UNEXPECTED ≠ MF_E_INVALID_STATE_TRANSITION := by
  decide

/-- C12 (amended): for every active stream (not shut down, notification queue
present) and every state value other than `MF_STREAM_STATE_PAUSED`,
`MF_STREAM_STATE_RUNNING` and `MF_STREAM_STATE_STOPPED`, `SetStreamState`
returns the failure `MF_E_INVALID_STATE_TRANSITION` and leaves the stream with
the selection flag cleared, whatever the flag was, and nothing else changed; a
following `GetStreamState` succeeds and reports `MF_STREAM_STATE_STOPPED`. -/
theorem setStreamState_unknown_clears_selection (P : Platform) (s : SimpleMediaStream)
    (state : MF_STREAM_STATE)
    (hshutdown : s._isShutdown = false) (hqueue : s._spEventQueue ≠ none)
    (hpaused : state ≠ MF_STREAM_STATE_PAUSED) (hrunning : state ≠ MF_STREAM_STATE_RUNNING)
    (hstopped : state ≠ MF_STREAM_STATE_STOPPED) :
    s.SetStreamState P state =
        .ok (MF_E_INVALID_STATE_TRANSITION, { s with _isSelected := false }) ∧
      FAILED MF_E_INVALID_STATE_TRANSITION = true ∧
      ({ s with _isSelected := false } : SimpleMediaStream).GetStreamState =
        (S_OK, some MF_STREAM_STATE_STOPPED) := by
  have hcheck : s._CheckShutdownRequiresLock = S_OK := by
    simp [SimpleMediaStream._CheckShutdownRequiresLock, hshutdown, hqueue]
  have hcheck1 : ({ s with _isSelected := false } : SimpleMediaStream)._CheckShutdownRequiresLock
      = S_OK := by
    simp [SimpleMediaStream._CheckShutdownRequiresLock, hshutdown, hqueue]
  have hok : FAILED S_OK = false := by decide
  refine ⟨?_, by decide, ?_⟩
  · simp only [SimpleMediaStream.SetStreamState, hcheck, hok, Bool.false_eq_true, if_false,
      hpaused, hrunning, hstopped]
  · simp only [SimpleMediaStream.GetStreamState, hcheck1, hok, Bool.false_eq_true, if_false]

/-- C12 (amended) on the running test stream with the state value 7. -/
theorem setStreamState_unknown_clears_selection_witness :
    demoStream._isSelected = true ∧
    demoStream.SetStreamState demoPlatform 7 =
        .ok (MF_E_INVALID_STATE_TRANSITION, { demoStream with _isSelected := false }) ∧
      FAILED MF_E_INVALID_STATE_TRANSITION = true ∧
      ({ demoStream with _isSelected := false } : SimpleMediaStream).GetStreamState =
        (S_OK, some MF_STREAM_STATE_STOPPED) :=
  ⟨rfl, setStreamState_unknown_clears_selection demoPlatform demoStream 7
    (by decide) (by decide) (by decide) (by decide) (by decide)⟩

end Stream






end VideoConference
